import Mathlib

/-!
Shallow embedding of `generate_test_data.py` (repository vision-smart-AI).

The script seeds Python's global PRNG (`random.seed(42)`) and then generates
four CSV files by drawing from that single PRNG stream.  We model the PRNG as
a *tape*: a function `Nat → ℚ` giving, for each successive sampling call, a
value in `[0, 1)`.  Every sampling primitive of the `random` module consumes
exactly one tape cell, in the order the source performs the calls:

  * `random.random()`          ↦ the tape value `u` itself,
  * `random.uniform a b`       ↦ `a + u * (b - a)`,
  * `random.randint a b`       ↦ `a + ⌊u * (b - a + 1)⌋`,
  * `random.choice l`          ↦ `l[⌊u * l.length⌋]`.

Python floats are modelled by exact rationals (`ℚ`); `round(x, 2)` becomes
`round2` below.  A CSV cell is a `Cell`; Python's `""` (and `None`, which the
`csv` module also serializes as an empty cell) is `Cell.empty`.  Dates are
modelled by their day number since 1970-01-01 (proleptic Gregorian, exactly
Python's `datetime.date` arithmetic); `Cell.date n` stands for the
`strftime('%Y-%m-%d')` string of that day.
-/

namespace VisionSmart

/-- Python's `round(x, 2)` on our rational model of floats. -/
def round2 (q : ℚ) : ℚ := ((round (q * 100) : ℤ) : ℚ) / 100

/-- Python's `round(x, 1)` on our rational model of floats. -/
def round1 (q : ℚ) : ℚ := ((round (q * 10) : ℤ) : ℚ) / 10

/-- One CSV cell as written by `csv.writer`. -/
inductive Cell where
  | empty
  | str (s : String)
  | int (n : ℤ)
  | rat (q : ℚ)
  | bool (b : Bool)
  | date (epochDay : ℤ)
deriving DecidableEq, Repr

/-- The PRNG stream: tape position ↦ unit-interval draw. -/
abbrev Tape := Nat → ℚ

/-- All tape values lie in `[0, 1)`, as `random.random()` guarantees. -/
def InRange (t : Tape) : Prop := ∀ n, 0 ≤ t n ∧ t n < 1

/-- Model of `random.uniform a b` given the draw at position `k`. -/
def uniformV (t : Tape) (k : ℕ) (a b : ℚ) : ℚ := a + t k * (b - a)

/-- Model of `random.randint a b` given the draw at position `k`. -/
def randintV (t : Tape) (k : ℕ) (a b : ℤ) : ℤ := a + ⌊t k * ((b - a + 1 : ℤ) : ℚ)⌋

/-- Model of `random.choice l` given the draw at position `k`. -/
def choiceV {α : Type} (t : Tape) (k : ℕ) (l : List α) (dflt : α) : α :=
  l.getD (⌊t k * (l.length : ℚ)⌋).toNat dflt

/-- Source line 15: `add_missing_values(value, missing_rate)`, consuming one
`random.random()` draw at position `k`. -/
def add_missing_values (t : Tape) (k : ℕ) (value : Cell) (missing_rate : ℚ) : Cell :=
  if t k < missing_rate then Cell.empty else value

/-- Days from 1970-01-01 to the civil date `y-m-d` (Howard Hinnant's
`days_from_civil`, the same proleptic Gregorian calendar as Python's
`datetime.date`). -/
def daysFromCivil (y : ℤ) (m d : ℕ) : ℤ :=
  let y' : ℤ := if m ≤ 2 then y - 1 else y
  let era : ℤ := (if 0 ≤ y' then y' else y' - 399) / 400
  let yoe : ℕ := (y' - era * 400).toNat
  let mp : ℕ := if 2 < m then m - 3 else m + 9
  let doy : ℕ := (153 * mp + 2) / 5 + d - 1
  let doe : ℕ := yoe * 365 + yoe / 4 - yoe / 100 + doy
  era * 146097 + (doe : ℤ) - 719468

/-- Civil date `(y, m, d)` of a day number `≥ 0` (1970-01-01 or later);
Hinnant's `civil_from_days` specialised to the non-negative case. -/
def civilFromDays (z : ℤ) : ℕ × ℕ × ℕ :=
  let z' : ℕ := (z + 719468).toNat
  let era : ℕ := z' / 146097
  let doe : ℕ := z' % 146097
  let yoe : ℕ := (doe - doe / 1460 + doe / 36524 - doe / 146096) / 365
  let y : ℕ := yoe + era * 400
  let doy : ℕ := doe - (365 * yoe + yoe / 4 - yoe / 100)
  let mp : ℕ := (5 * doy + 2) / 153
  let d : ℕ := doy - (153 * mp + 2) / 5 + 1
  let m : ℕ := if mp < 10 then mp + 3 else mp - 9
  (if m ≤ 2 then y + 1 else y, m, d)

/-- `date.year` of a day number. -/
def yearOf (z : ℤ) : ℕ := (civilFromDays z).1

/-- `date.month` of a day number. -/
def monthOf (z : ℤ) : ℕ := (civilFromDays z).2.1

/-- Source line 10: `random_date(start_date, end_date)`; consumes the one
`random.randint(0, delta.days)` draw at position `k`. -/
def random_date (t : Tape) (k : ℕ) (start_date end_date : ℤ) : ℤ :=
  start_date + randintV t k 0 (end_date - start_date)

/-- Source line 59: the season chain on `date.month`. -/
def seasonOf (m : ℕ) : String :=
  if m = 12 ∨ m = 1 ∨ m = 2 then "Winter"
  else if m = 3 ∨ m = 4 ∨ m = 5 then "Spring"
  else if m = 6 ∨ m = 7 ∨ m = 8 then "Summer"
  else "Fall"

/-! Fixed vocabularies (source lines 20-24, 90-93, 105-106, 147-150, 162-171,
217-221). -/

def categories : List String :=
  ["Electronics", "Clothing", "Furniture", "Food", "Books", "Sports", "Toys",
   "Beauty", "Home", "Garden"]

def regions : List String := ["North", "South", "East", "West", "Central"]

def statuses : List String := ["Delivered", "Shipped", "Pending", "Cancelled", "Returned"]

def payment_methods : List String :=
  ["Credit Card", "Debit Card", "PayPal", "Cash", "Bank Transfer"]

def customer_segments : List String := ["Premium", "Standard", "Basic", "VIP"]

def countries : List String :=
  ["USA", "Canada", "UK", "Germany", "France", "Australia", "Japan", "Brazil",
   "India", "China"]

def genders : List String := ["Male", "Female", "Other", "Prefer not to say"]

def subscription_types : List String := ["Free", "Basic", "Premium", "Enterprise"]

def account_statuses : List String := ["Active", "Inactive", "Suspended", "Pending"]

def first_names : List String :=
  ["John", "Emma", "Michael", "Sophia", "William", "Olivia", "James", "Ava",
   "Robert", "Isabella"]

def last_names : List String :=
  ["Smith", "Johnson", "Williams", "Brown", "Jones", "Garcia", "Miller",
   "Davis", "Rodriguez", "Martinez"]

def brands : List String :=
  ["BrandA", "BrandB", "BrandC", "BrandD", "BrandE", "BrandF", "BrandG", "BrandH"]

def suppliers : List String :=
  ["Supplier1", "Supplier2", "Supplier3", "Supplier4", "Supplier5"]

def warehouses : List String :=
  ["WH-North", "WH-South", "WH-East", "WH-West", "WH-Central"]

def product_statuses : List String :=
  ["Active", "Discontinued", "Out of Stock", "Limited Stock"]

def colors : List String :=
  ["Red", "Blue", "Green", "Black", "White", "Silver", "Gold", "Pink",
   "Purple", "Orange"]

def sizes : List String := ["XS", "S", "M", "L", "XL", "XXL", "One Size"]

def materials : List String :=
  ["Cotton", "Plastic", "Metal", "Wood", "Glass", "Leather", "Synthetic", "Mixed"]

/-- Source lines 165-171 plus the `.get(category, ["General"])` default of
line 175. -/
def subcategories (c : String) : List String :=
  if c = "Electronics" then ["Phones", "Laptops", "Tablets", "Cameras"]
  else if c = "Clothing" then ["Shirts", "Pants", "Dresses", "Shoes"]
  else if c = "Furniture" then ["Chairs", "Tables", "Sofas", "Beds"]
  else if c = "Food" then ["Snacks", "Beverages", "Frozen", "Fresh"]
  else if c = "Books" then ["Fiction", "Non-Fiction", "Educational", "Comics"]
  else ["General"]

def channels : List String :=
  ["Email", "Social Media", "Google Ads", "TV", "Radio", "Billboard",
   "Influencer", "Direct Mail"]

def campaign_types : List String :=
  ["Awareness", "Conversion", "Retention", "Launch", "Seasonal"]

def target_audiences : List String :=
  ["18-24", "25-34", "35-44", "45-54", "55-64", "65+"]

def ad_formats : List String :=
  ["Image", "Video", "Carousel", "Story", "Text", "Interactive"]

def objectives : List String :=
  ["Traffic", "Sales", "Leads", "Engagement", "Brand Awareness"]

/-- The discount vocabulary of source line 43. -/
def discounts : List ℤ := [0, 5, 10, 15, 20, 25, 30]

/-! ## Sales file (source lines 26-86) -/

/-- The per-row values of the sales loop (source lines 40-59).  `salesBase`
records the line-41 sample of `sales_amount` before any outlier override;
`sales` and `total` are the final (possibly overridden) values. -/
structure SalesVals where
  dateDay : ℤ
  salesBase : ℚ
  quantity : ℤ
  discount : ℤ
  tax : ℚ
  shipping : ℚ
  transaction_id : ℤ
  dupFired : Bool
  outlierFired : Bool
  sales : ℚ
  total : ℚ
  season : String
deriving DecidableEq, Repr

/-- Source lines 40-59: one sales row's sampled and derived values, starting
at tape position `k`; returns the values and the next free position.  `i` is
the loop variable of line 39. -/
def salesCore (t : Tape) (i : ℤ) (k : ℕ) : SalesVals × ℕ :=
  let date := random_date t k (daysFromCivil 2020 1 1) (daysFromCivil 2024 12 31)
  let salesBase := round2 (uniformV t (k+1) 10 5000)
  let quantity := randintV t (k+2) 1 20
  let discount := choiceV t (k+3) discounts 0
  let tax := round2 (salesBase * (8/100))
  let shipping := round2 (uniformV t (k+4) 0 50)
  let total0 := round2 (salesBase - salesBase * (discount : ℚ) / 100 + tax + shipping)
  let tid := if t (k+5) < 2/100 ∧ 100 < i then randintV t (k+6) 1 (i-1) else i
  let k1 := if t (k+5) < 2/100 ∧ 100 < i then k+7 else k+6
  let sales := if t k1 < 1/100 then round2 (uniformV t (k1+1) 10000 50000) else salesBase
  let total := if t k1 < 1/100 then round2 (sales - sales * (discount : ℚ) / 100 + tax + shipping)
               else total0
  let k2 := if t k1 < 1/100 then k1+2 else k1+1
  ({ dateDay := date, salesBase := salesBase, quantity := quantity,
     discount := discount, tax := tax, shipping := shipping,
     transaction_id := tid, dupFired := decide (t (k+5) < 2/100 ∧ 100 < i),
     outlierFired := decide (t k1 < 1/100),
     sales := sales, total := total, season := seasonOf (monthOf date) }, k2)

/-- Source lines 61-84: the `writer.writerow` call of the sales loop, applied
to the row values `v`, starting at tape position `k`; per source order, each
cell's own sampling draws come right before its `add_missing_values` draw. -/
def salesWriter (t : Tape) (v : SalesVals) (k : ℕ) : List Cell × ℕ :=
  let c1 := add_missing_values t k (Cell.int v.transaction_id) (1/1000)
  let c2 := add_missing_values t (k+1) (Cell.date v.dateDay) (2/100)
  let c3 := add_missing_values t (k+3) (Cell.int (randintV t (k+2) 1 5000)) (3/100)
  let c4 := add_missing_values t (k+5) (Cell.int (randintV t (k+4) 1000 9999)) (2/100)
  let c5 := add_missing_values t (k+7) (Cell.str (choiceV t (k+6) categories "")) (1/100)
  let c6 := add_missing_values t (k+9) (Cell.str (choiceV t (k+8) regions "")) (1/100)
  let c7 := add_missing_values t (k+10) (Cell.rat v.sales) (5/100)
  let c8 := add_missing_values t (k+11) (Cell.int v.quantity) (3/100)
  let c9 := add_missing_values t (k+12) (Cell.int v.discount) (2/100)
  let c10 := add_missing_values t (k+13) (Cell.rat v.tax) (4/100)
  let c11 := add_missing_values t (k+14) (Cell.rat v.shipping) (3/100)
  let c12 := add_missing_values t (k+15) (Cell.rat v.total) (5/100)
  let c13 := add_missing_values t (k+17) (Cell.str (choiceV t (k+16) statuses "")) (2/100)
  let c14 := add_missing_values t (k+19) (Cell.str (choiceV t (k+18) payment_methods "")) (1/100)
  let c15 := add_missing_values t (k+21) (Cell.str (choiceV t (k+20) customer_segments "")) (3/100)
  let c16 := add_missing_values t (k+23) (Cell.int (randintV t (k+22) 1 30)) (4/100)
  let c17 := add_missing_values t (k+25) (Cell.int (randintV t (k+24) 1 5)) (10/100)
  let c18 := add_missing_values t (k+27) (Cell.bool (choiceV t (k+26) [true, false] true)) (2/100)
  let c19 := add_missing_values t (k+29) (Cell.bool (choiceV t (k+28) [true, false] true)) (1/100)
  let c20 := add_missing_values t (k+30) (Cell.str v.season) (1/100)
  let c21 := add_missing_values t (k+31) (Cell.int (yearOf v.dateDay)) (1/100)
  let c22 := add_missing_values t (k+32) (Cell.int (monthOf v.dateDay)) (1/100)
  ([c1, c2, c3, c4, c5, c6, c7, c8, c9, c10, c11, c12, c13, c14, c15, c16,
    c17, c18, c19, c20, c21, c22], k+33)

/-- One full sales row (values then writer), source lines 40-84. -/
def salesCells (t : Tape) (i : ℤ) (k : ℕ) : List Cell × ℕ :=
  let p := salesCore t i k
  salesWriter t p.1 p.2

/-- The sales loop: `n` consecutive rows starting at loop index `i`, tape
position `k`. -/
def salesRowsAux (t : Tape) : ℤ → ℕ → ℕ → List (List Cell) × ℕ
  | _, k, 0 => ([], k)
  | i, k, n+1 =>
      let p := salesCells t i k
      let rest := salesRowsAux t (i+1) p.2 n
      (p.1 :: rest.1, rest.2)

/-- Source lines 28-34: the sales header row. -/
def salesHeader : List Cell :=
  [Cell.str "transaction_id", Cell.str "date", Cell.str "customer_id",
   Cell.str "product_id", Cell.str "category", Cell.str "region",
   Cell.str "sales_amount", Cell.str "quantity", Cell.str "discount_percent",
   Cell.str "tax_amount", Cell.str "shipping_cost", Cell.str "total_amount",
   Cell.str "status", Cell.str "payment_method", Cell.str "customer_segment",
   Cell.str "delivery_days", Cell.str "rating", Cell.str "is_repeat_customer",
   Cell.str "promotion_applied", Cell.str "season", Cell.str "year",
   Cell.str "month"]

/-- The whole `sales_data.csv` contents (header plus 25000 rows, source lines
26-84), starting at tape position `k`; also returns the next free position. -/
def sales_data (t : Tape) (k : ℕ) : List (List Cell) × ℕ :=
  let p := salesRowsAux t 1 k 25000
  (salesHeader :: p.1, p.2)

/-! ## Customer file (source lines 88-143) -/

/-- The per-row values of the customer loop (source lines 108-117). -/
structure CustomerVals where
  signupDay : ℤ
  lastPurchase : Option ℤ
  total_orders : ℤ
  avg_order : ℚ
  lifetime_value : ℚ
  outlierFired : Bool
deriving DecidableEq, Repr

/-- Source lines 108-117: one customer row's sampled and derived values.  The
ternary of line 110 evaluates its `random.random()` condition first and only
samples a date when the draw exceeds `0.1`. -/
def customerCore (t : Tape) (k : ℕ) : CustomerVals × ℕ :=
  let signup := random_date t k (daysFromCivil 2018 1 1) (daysFromCivil 2024 12 31)
  let lastPurchase : Option ℤ :=
    if 1/10 < t (k+1) then some (random_date t (k+2) signup (daysFromCivil 2024 12 31))
    else none
  let k1 := if 1/10 < t (k+1) then k+3 else k+2
  let total_orders := randintV t k1 0 200
  let avg_order := round2 (uniformV t (k1+1) 20 500)
  let lifetime_value0 := round2 ((total_orders : ℚ) * avg_order)
  let lifetime_value := if t (k1+2) < 1/100 then round2 (uniformV t (k1+3) 50000 200000)
                        else lifetime_value0
  let k2 := if t (k1+2) < 1/100 then k1+4 else k1+3
  ({ signupDay := signup, lastPurchase := lastPurchase,
     total_orders := total_orders, avg_order := avg_order,
     lifetime_value := lifetime_value, outlierFired := decide (t (k1+2) < 1/100) }, k2)

/-- Source lines 119-141: the `writer.writerow` call of the customer loop. -/
def customerWriter (t : Tape) (i : ℤ) (v : CustomerVals) (k : ℕ) : List Cell × ℕ :=
  let c1 := add_missing_values t k (Cell.int i) (1/1000)
  let c2 := add_missing_values t (k+2) (Cell.str (choiceV t (k+1) first_names "")) (2/100)
  let c3 := add_missing_values t (k+4) (Cell.str (choiceV t (k+3) last_names "")) (2/100)
  let c4 := add_missing_values t (k+7)
      (Cell.str ((choiceV t (k+5) first_names "").toLower ++ "." ++
        (choiceV t (k+6) last_names "").toLower ++ "@example.com")) (3/100)
  let c5 := add_missing_values t (k+11)
      (Cell.str ("+1-" ++ toString (randintV t (k+8) 200 999) ++ "-" ++
        toString (randintV t (k+9) 100 999) ++ "-" ++
        toString (randintV t (k+10) 1000 9999))) (8/100)
  let c6 := add_missing_values t (k+13) (Cell.str (choiceV t (k+12) countries "")) (2/100)
  let c7 := add_missing_values t (k+15)
      (Cell.str ("City_" ++ toString (randintV t (k+14) 1 100))) (3/100)
  let c8 := add_missing_values t (k+17) (Cell.int (randintV t (k+16) 18 80)) (5/100)
  let c9 := add_missing_values t (k+19) (Cell.str (choiceV t (k+18) genders "")) (6/100)
  let c10 := add_missing_values t (k+20) (Cell.date v.signupDay) (1/100)
  let c11 := add_missing_values t (k+22) (Cell.str (choiceV t (k+21) subscription_types "")) (2/100)
  let c12 := add_missing_values t (k+24) (Cell.str (choiceV t (k+23) account_statuses "")) (1/100)
  let c13 := add_missing_values t (k+25) (Cell.rat v.lifetime_value) (4/100)
  let c14 := add_missing_values t (k+26) (Cell.int v.total_orders) (3/100)
  let c15 := add_missing_values t (k+27) (Cell.rat v.avg_order) (4/100)
  let c16 := add_missing_values t (k+28)
      (match v.lastPurchase with
       | some d => Cell.date d
       | none => Cell.empty) (15/100)
  let c17 := add_missing_values t (k+30) (Cell.int (randintV t (k+29) 0 10000)) (5/100)
  let c18 := add_missing_values t (k+32) (Cell.bool (choiceV t (k+31) [true, false] true)) (2/100)
  let c19 := add_missing_values t (k+34) (Cell.bool (choiceV t (k+33) [true, false] true)) (3/100)
  let c20 := add_missing_values t (k+36) (Cell.bool (choiceV t (k+35) [true, false] true)) (4/100)
  let c21 := add_missing_values t (k+38) (Cell.int (randintV t (k+37) 0 50)) (5/100)
  ([c1, c2, c3, c4, c5, c6, c7, c8, c9, c10, c11, c12, c13, c14, c15, c16,
    c17, c18, c19, c20, c21], k+39)

/-- One full customer row, source lines 108-141. -/
def customerCells (t : Tape) (i : ℤ) (k : ℕ) : List Cell × ℕ :=
  let p := customerCore t k
  customerWriter t i p.1 p.2

/-- The customer loop: `n` rows starting at loop index `i`. -/
def customerRowsAux (t : Tape) : ℤ → ℕ → ℕ → List (List Cell) × ℕ
  | _, k, 0 => ([], k)
  | i, k, n+1 =>
      let p := customerCells t i k
      let rest := customerRowsAux t (i+1) p.2 n
      (p.1 :: rest.1, rest.2)

/-- Source lines 97-103: the customer header row. -/
def customerHeader : List Cell :=
  [Cell.str "customer_id", Cell.str "first_name", Cell.str "last_name",
   Cell.str "email", Cell.str "phone", Cell.str "country", Cell.str "city",
   Cell.str "age", Cell.str "gender", Cell.str "signup_date",
   Cell.str "subscription_type", Cell.str "account_status",
   Cell.str "lifetime_value", Cell.str "total_orders",
   Cell.str "average_order_value", Cell.str "last_purchase_date",
   Cell.str "loyalty_points", Cell.str "is_verified", Cell.str "email_opt_in",
   Cell.str "sms_opt_in", Cell.str "referral_count"]

/-- The whole `customer_data.csv` contents (source lines 95-141). -/
def customer_data (t : Tape) (k : ℕ) : List (List Cell) × ℕ :=
  let p := customerRowsAux t 1 k 25000
  (customerHeader :: p.1, p.2)

/-! ## Product file (source lines 145-213) -/

/-- The per-row values of the product loop (source lines 174-185).
`sellingBase` records the line-177 sample before any outlier override. -/
structure ProductVals where
  category : String
  cost : ℚ
  sellingBase : ℚ
  selling : ℚ
  profit_margin : ℚ
  launchDay : ℤ
  outlierFired : Bool
deriving DecidableEq, Repr

/-- Source lines 174-185: one product row's sampled and derived values. -/
def productCore (t : Tape) (k : ℕ) : ProductVals × ℕ :=
  let category := choiceV t k categories ""
  let cost := round2 (uniformV t (k+1) 5 500)
  let sellingBase := round2 (cost * uniformV t (k+2) (12/10) 3)
  let margin0 := round2 (((sellingBase - cost) / sellingBase) * 100)
  let selling := if t (k+3) < 1/100 then round2 (uniformV t (k+4) 5000 20000) else sellingBase
  let margin := if t (k+3) < 1/100 then round2 (((selling - cost) / selling) * 100) else margin0
  let k1 := if t (k+3) < 1/100 then k+5 else k+4
  let launch := random_date t k1 (daysFromCivil 2015 1 1) (daysFromCivil 2024 12 31)
  ({ category := category, cost := cost, sellingBase := sellingBase,
     selling := selling, profit_margin := margin, launchDay := launch,
     outlierFired := decide (t (k+3) < 1/100) }, k1+1)

/-- The warranty vocabulary of source line 210. -/
def warranties : List ℤ := [0, 6, 12, 24, 36]

/-- Source lines 187-211: the `writer.writerow` call of the product loop. -/
def productWriter (t : Tape) (i : ℤ) (v : ProductVals) (k : ℕ) : List Cell × ℕ :=
  let c1 := add_missing_values t k (Cell.int i) (1/1000)
  let c2 := add_missing_values t (k+1)
      (Cell.str ("Product_" ++ v.category ++ "_" ++ toString i)) (2/100)
  let c3 := add_missing_values t (k+2) (Cell.str v.category) (1/100)
  let c4 := add_missing_values t (k+4)
      (Cell.str (choiceV t (k+3) (subcategories v.category) "")) (2/100)
  let c5 := add_missing_values t (k+6) (Cell.str (choiceV t (k+5) brands "")) (2/100)
  let c6 := add_missing_values t (k+8) (Cell.str (choiceV t (k+7) suppliers "")) (3/100)
  let c7 := add_missing_values t (k+9) (Cell.rat v.cost) (4/100)
  let c8 := add_missing_values t (k+10) (Cell.rat v.selling) (4/100)
  let c9 := add_missing_values t (k+11) (Cell.rat v.profit_margin) (5/100)
  let c10 := add_missing_values t (k+13) (Cell.int (randintV t (k+12) 0 1000)) (3/100)
  let c11 := add_missing_values t (k+15) (Cell.int (randintV t (k+14) 10 100)) (4/100)
  let c12 := add_missing_values t (k+17) (Cell.str (choiceV t (k+16) warehouses "")) (3/100)
  let c13 := add_missing_values t (k+19) (Cell.rat (round2 (uniformV t (k+18) (1/10) 50))) (5/100)
  let c14 := add_missing_values t (k+23)
      (Cell.str (toString (randintV t (k+20) 5 100) ++ "x" ++
        toString (randintV t (k+21) 5 100) ++ "x" ++
        toString (randintV t (k+22) 5 100))) (6/100)
  let c15 := add_missing_values t (k+25) (Cell.str (choiceV t (k+24) colors "")) (5/100)
  let c16 := add_missing_values t (k+27) (Cell.str (choiceV t (k+26) sizes "")) (7/100)
  let c17 := add_missing_values t (k+29) (Cell.str (choiceV t (k+28) materials "")) (4/100)
  let c18 := add_missing_values t (k+31) (Cell.rat (round1 (uniformV t (k+30) 1 5))) (8/100)
  let c19 := add_missing_values t (k+33) (Cell.int (randintV t (k+32) 0 5000)) (7/100)
  let c20 := add_missing_values t (k+34) (Cell.date v.launchDay) (3/100)
  let c21 := add_missing_values t (k+36) (Cell.str (choiceV t (k+35) product_statuses "")) (2/100)
  let c22 := add_missing_values t (k+38) (Cell.bool (choiceV t (k+37) [true, false] true)) (2/100)
  let c23 := add_missing_values t (k+40) (Cell.int (choiceV t (k+39) warranties 0)) (5/100)
  ([c1, c2, c3, c4, c5, c6, c7, c8, c9, c10, c11, c12, c13, c14, c15, c16,
    c17, c18, c19, c20, c21, c22, c23], k+41)

/-- One full product row, source lines 174-211. -/
def productCells (t : Tape) (i : ℤ) (k : ℕ) : List Cell × ℕ :=
  let p := productCore t k
  productWriter t i p.1 p.2

/-- The product loop: `n` rows starting at loop index `i` (source line 173
iterates `i` over `range(1000, 26000)`). -/
def productRowsAux (t : Tape) : ℤ → ℕ → ℕ → List (List Cell) × ℕ
  | _, k, 0 => ([], k)
  | i, k, n+1 =>
      let p := productCells t i k
      let rest := productRowsAux t (i+1) p.2 n
      (p.1 :: rest.1, rest.2)

/-- Source lines 154-160: the product header row. -/
def productHeader : List Cell :=
  [Cell.str "product_id", Cell.str "product_name", Cell.str "category",
   Cell.str "subcategory", Cell.str "brand", Cell.str "supplier",
   Cell.str "cost_price", Cell.str "selling_price", Cell.str "profit_margin",
   Cell.str "stock_quantity", Cell.str "reorder_level",
   Cell.str "warehouse_location", Cell.str "weight_kg",
   Cell.str "dimensions_cm", Cell.str "color", Cell.str "size",
   Cell.str "material", Cell.str "rating_average", Cell.str "review_count",
   Cell.str "launch_date", Cell.str "status", Cell.str "is_featured",
   Cell.str "warranty_months"]

/-- The whole `product_data.csv` contents (source lines 152-211). -/
def product_data (t : Tape) (k : ℕ) : List (List Cell) × ℕ :=
  let p := productRowsAux t 1000 k 25000
  (productHeader :: p.1, p.2)

/-! ## Campaign file (source lines 215-284) -/

/-- The per-row values of the campaign loop (source lines 234-255).
`spendBase` records the line-239 spend from which line 245 computes
`cost_per_click`; `budget`, `spend`, `revenue`, `roi` are the final values
after the possible outlier override of lines 251-255. -/
structure CampaignVals where
  startDay : ℤ
  endDay : ℤ
  budget : ℚ
  spendBase : ℚ
  spend : ℚ
  impressions : ℤ
  clicks : ℤ
  conversions : ℤ
  ctr : ℚ
  conv_rate : ℚ
  cpc : ℚ
  cpa : ℚ
  revenue : ℚ
  roi : ℚ
  outlierFired : Bool
deriving DecidableEq, Repr

/-- Source lines 234-255: one campaign row's sampled and derived values.
Python's `int(x)` on the non-negative caps of lines 241-242 is `⌊x⌋`. -/
def campaignCore (t : Tape) (k : ℕ) : CampaignVals × ℕ :=
  let start := random_date t k (daysFromCivil 2020 1 1) (daysFromCivil 2024 11 30)
  let duration := randintV t (k+1) 7 90
  let endDay := start + duration
  let budget0 := round2 (uniformV t (k+2) 1000 100000)
  let spend0 := round2 (budget0 * uniformV t (k+3) (5/10) (11/10))
  let impressions := randintV t (k+4) 1000 1000000
  let clicks := randintV t (k+5) 10 ⌊(impressions : ℚ) * (1/10)⌋
  let conversions := randintV t (k+6) 0 ⌊(clicks : ℚ) * (2/10)⌋
  let ctr := if 0 < impressions then round2 ((clicks : ℚ) / (impressions : ℚ) * 100) else 0
  let conv_rate := if 0 < clicks then round2 ((conversions : ℚ) / (clicks : ℚ) * 100) else 0
  let cpc := if 0 < clicks then round2 (spend0 / (clicks : ℚ)) else 0
  let cpa := if 0 < conversions then round2 (spend0 / (conversions : ℚ)) else 0
  let revenue0 := round2 ((conversions : ℚ) * uniformV t (k+7) 50 500)
  let roi0 := if 0 < spend0 then round2 ((revenue0 - spend0) / spend0 * 100) else 0
  let budget := if t (k+8) < 1/100 then round2 (uniformV t (k+9) 500000 2000000) else budget0
  let spend := if t (k+8) < 1/100 then round2 (budget * uniformV t (k+10) (8/10) 1) else spend0
  let revenue := if t (k+8) < 1/100 then round2 (spend * uniformV t (k+11) 2 10) else revenue0
  let roi := if t (k+8) < 1/100 then round2 ((revenue - spend) / spend * 100) else roi0
  let k1 := if t (k+8) < 1/100 then k+12 else k+9
  ({ startDay := start, endDay := endDay, budget := budget,
     spendBase := spend0, spend := spend, impressions := impressions,
     clicks := clicks, conversions := conversions, ctr := ctr,
     conv_rate := conv_rate, cpc := cpc, cpa := cpa, revenue := revenue,
     roi := roi, outlierFired := decide (t (k+8) < 1/100) }, k1)

/-- Python's `f"CMP{i:05d}"` zero-padding for the campaign ids of line 258. -/
def pad5 (n : ℤ) : String :=
  let s := toString n
  String.mk (List.replicate (5 - s.length) '0') ++ s

/-- The `a_b_test_variant` vocabulary of source line 280; `None` is written by
the `csv` module as an empty cell. -/
def abVariants : List Cell :=
  [Cell.str "A", Cell.str "B", Cell.str "Control", Cell.empty]

/-- Source lines 257-282: the `writer.writerow` call of the campaign loop. -/
def campaignWriter (t : Tape) (i : ℤ) (v : CampaignVals) (k : ℕ) : List Cell × ℕ :=
  let c1 := add_missing_values t k (Cell.str ("CMP" ++ pad5 i)) (1/1000)
  let c2 := add_missing_values t (k+2)
      (Cell.str ("Campaign_" ++ choiceV t (k+1) campaign_types "" ++ "_" ++ toString i)) (2/100)
  let c3 := add_missing_values t (k+3) (Cell.date v.startDay) (1/100)
  let c4 := add_missing_values t (k+4) (Cell.date v.endDay) (2/100)
  let c5 := add_missing_values t (k+6) (Cell.str (choiceV t (k+5) channels "")) (1/100)
  let c6 := add_missing_values t (k+8) (Cell.str (choiceV t (k+7) campaign_types "")) (1/100)
  let c7 := add_missing_values t (k+10) (Cell.str (choiceV t (k+9) target_audiences "")) (3/100)
  let c8 := add_missing_values t (k+12) (Cell.str (choiceV t (k+11) ad_formats "")) (2/100)
  let c9 := add_missing_values t (k+14) (Cell.str (choiceV t (k+13) objectives "")) (2/100)
  let c10 := add_missing_values t (k+15) (Cell.rat v.budget) (3/100)
  let c11 := add_missing_values t (k+16) (Cell.rat v.spend) (4/100)
  let c12 := add_missing_values t (k+17) (Cell.int v.impressions) (5/100)
  let c13 := add_missing_values t (k+18) (Cell.int v.clicks) (5/100)
  let c14 := add_missing_values t (k+19) (Cell.int v.conversions) (6/100)
  let c15 := add_missing_values t (k+20) (Cell.rat v.ctr) (6/100)
  let c16 := add_missing_values t (k+21) (Cell.rat v.conv_rate) (7/100)
  let c17 := add_missing_values t (k+22) (Cell.rat v.cpc) (6/100)
  let c18 := add_missing_values t (k+23) (Cell.rat v.cpa) (8/100)
  let c19 := add_missing_values t (k+24) (Cell.rat v.revenue) (5/100)
  let c20 := add_missing_values t (k+25) (Cell.rat v.roi) (6/100)
  let c21 := add_missing_values t (k+27) (Cell.str (choiceV t (k+26) regions "")) (2/100)
  let c22 := add_missing_values t (k+29) (Cell.bool (choiceV t (k+28) [true, false] true)) (2/100)
  let c23 := add_missing_values t (k+31) (choiceV t (k+30) abVariants Cell.empty) (20/100)
  let c24 := add_missing_values t (k+33) (Cell.rat (round1 (uniformV t (k+32) 0 100))) (7/100)
  ([c1, c2, c3, c4, c5, c6, c7, c8, c9, c10, c11, c12, c13, c14, c15, c16,
    c17, c18, c19, c20, c21, c22, c23, c24], k+34)

/-- One full campaign row, source lines 234-282. -/
def campaignCells (t : Tape) (i : ℤ) (k : ℕ) : List Cell × ℕ :=
  let p := campaignCore t k
  campaignWriter t i p.1 p.2

/-- The campaign loop: `n` rows starting at loop index `i`. -/
def campaignRowsAux (t : Tape) : ℤ → ℕ → ℕ → List (List Cell) × ℕ
  | _, k, 0 => ([], k)
  | i, k, n+1 =>
      let p := campaignCells t i k
      let rest := campaignRowsAux t (i+1) p.2 n
      (p.1 :: rest.1, rest.2)

/-- Source lines 225-231: the campaign header row. -/
def campaignHeader : List Cell :=
  [Cell.str "campaign_id", Cell.str "campaign_name", Cell.str "start_date",
   Cell.str "end_date", Cell.str "channel", Cell.str "campaign_type",
   Cell.str "target_audience", Cell.str "ad_format", Cell.str "objective",
   Cell.str "budget", Cell.str "spend", Cell.str "impressions",
   Cell.str "clicks", Cell.str "conversions", Cell.str "ctr_percent",
   Cell.str "conversion_rate_percent", Cell.str "cost_per_click",
   Cell.str "cost_per_conversion", Cell.str "revenue_generated",
   Cell.str "roi_percent", Cell.str "region", Cell.str "is_active",
   Cell.str "a_b_test_variant", Cell.str "engagement_score"]

/-- The whole `marketing_campaigns.csv` contents (source lines 223-282). -/
def marketing_campaigns (t : Tape) (k : ℕ) : List (List Cell) × ℕ :=
  let p := campaignRowsAux t 1 k 25000
  (campaignHeader :: p.1, p.2)

/-! ## The sales row as a staged pipeline, and the order the spec states -/

/-- Stage 1 of the sales row: sample base fields and compute the derived
fields (source lines 40-46 and 59), the identifier still the fresh `i` and no
override applied yet. -/
def stageBase (t : Tape) (i : ℤ) (k : ℕ) : SalesVals × ℕ :=
  let date := random_date t k (daysFromCivil 2020 1 1) (daysFromCivil 2024 12 31)
  let salesBase := round2 (uniformV t (k+1) 10 5000)
  let quantity := randintV t (k+2) 1 20
  let discount := choiceV t (k+3) discounts 0
  let tax := round2 (salesBase * (8/100))
  let shipping := round2 (uniformV t (k+4) 0 50)
  ({ dateDay := date, salesBase := salesBase, quantity := quantity,
     discount := discount, tax := tax, shipping := shipping,
     transaction_id := i, dupFired := false, outlierFired := false,
     sales := salesBase,
     total := round2 (salesBase - salesBase * (discount : ℚ) / 100 + tax + shipping),
     season := seasonOf (monthOf date) }, k+5)

/-- The duplicate-identifier override stage (source lines 48-52). -/
def stageDup (t : Tape) (i : ℤ) (p : SalesVals × ℕ) : SalesVals × ℕ :=
  if t p.2 < 2/100 ∧ 100 < i then
    ({ p.1 with transaction_id := randintV t (p.2+1) 1 (i-1), dupFired := true }, p.2+2)
  else (p.1, p.2+1)

/-- The outlier override stage: resample `sales_amount` and recompute `total`
(source lines 54-57). -/
def stageOutlier (t : Tape) (p : SalesVals × ℕ) : SalesVals × ℕ :=
  if t p.2 < 1/100 then
    let s := round2 (uniformV t (p.2+1) 10000 50000)
    ({ p.1 with
        sales := s
        total := round2 (s - s * (p.1.discount : ℚ) / 100 + p.1.tax + p.1.shipping)
        outlierFired := true }, p.2+2)
  else (p.1, p.2+1)

/-- Modelled from the spec: the per-row order stated in spec section 4.1
("sample base fields → compute derived fields → possibly override with
outlier values and recompute dependents → possibly override identifier for
duplication → apply per-field missingness last"), i.e. the outlier override
BEFORE the duplicate-identifier override.  Written for comparison with
`salesCore`, which follows the source's order. -/
def salesCoreSpecOrder (t : Tape) (i : ℤ) (k : ℕ) : SalesVals × ℕ :=
  stageDup t i (stageOutlier t (stageBase t i k))

/-! ## Concrete tapes used to evaluate the model -/

/-- The constant tape `1/2`: every draw is in `[0, 1)` and no corruption,
duplicate or outlier branch fires. -/
def halfTape : Tape := fun _ => 1/2

/-- A tape whose row-101 duplicate-check draw is `0.015` (below the `0.02`
duplicate rate but above the `0.01` outlier rate) and whose following draw is
`0`; the two step orders then disagree. -/
def tapeOrder : Tape := fun n => if n = 5 then 3/200 else if n = 6 then 0 else 1/2

/-- A tape whose first sales row fires the outlier branch (draw 6 is the
outlier check when the duplicate branch does not fire). -/
def tapeOutlier : Tape := fun n => if n = 6 then 0 else 1/2

/-- A tape whose first customer row draws 200 total orders (draw 3) with all
other draws `1/2`, firing no branch. -/
def tapeOrders : Tape := fun n => if n = 3 then 999/1000 else 1/2

/-- A tape whose first campaign row fires the outlier branch (draw 8 is the
outlier check). -/
def tapeSpend : Tape := fun n => if n = 8 then 0 else 1/2

/-- A tape for the first 101 sales rows: row 100's `transaction_id`
missingness draw (position `40·99+7 = 3967`) fires, row 101's duplicate-check
draw (position `4005`) fires, and the duplicate id draw (position `4006`)
picks `100`; every other draw is `1/2`. -/
def tapeDup : Tape :=
  fun n => if n = 3967 then 0 else if n = 4005 then 0
           else if n = 4006 then 199/200 else 1/2

/-- A tape whose campaign a_b_test_variant choice draw (position 39) picks
`None` while no missingness draw fires, and whose customer last-purchase
check draw (position 1) yields no last-purchase date. -/
def tapeEmpty : Tape :=
  fun n => if n = 1 then 1/20 else if n = 39 then 4/5 else 1/2

/-- The whole program run after `random.seed(42)`: the four files generated
in order from the single PRNG stream, each continuing at the tape position
where the previous file stopped (source lines 26-284). -/
def generateAll (t : Tape) : List (List (List Cell)) :=
  let p1 := sales_data t 0
  let p2 := customer_data t p1.2
  let p3 := product_data t p2.2
  let p4 := marketing_campaigns t p3.2
  [p1.1, p2.1, p3.1, p4.1]

/-! # Helper lemmas -/

theorem floorQ_eq {q : ℚ} {n : ℤ} (h1 : (n : ℚ) ≤ q) (h2 : q < n + 1) : ⌊q⌋ = n :=
  Int.floor_eq_iff.mpr ⟨h1, h2⟩

theorem round2_eq {q r : ℚ} {n : ℤ} (h1 : (n : ℚ) ≤ q * 100 + 1/2)
    (h2 : q * 100 + 1/2 < n + 1) (h3 : (n : ℚ) / 100 = r) : round2 q = r := by
  have h : round (q * 100) = n := by
    rw [round_eq]
    exact Int.floor_eq_iff.mpr ⟨h1, h2⟩
  rw [round2, h, h3]

theorem randintV_eval {t : Tape} {k : ℕ} (u : ℚ) (h : t k = u) (a b n : ℤ)
    (h1 : (n : ℚ) ≤ u * ((b - a + 1 : ℤ) : ℚ)) (h2 : u * ((b - a + 1 : ℤ) : ℚ) < n + 1) :
    randintV t k a b = a + n := by
  rw [randintV, h, Int.floor_eq_iff.mpr ⟨h1, h2⟩]

theorem choiceV_eval {α : Type} {t : Tape} {k : ℕ} (u : ℚ) (h : t k = u)
    (l : List α) (d : α) (n : ℤ)
    (h1 : (n : ℚ) ≤ u * (l.length : ℚ)) (h2 : u * (l.length : ℚ) < n + 1) :
    choiceV t k l d = l.getD n.toNat d := by
  rw [choiceV, h, Int.floor_eq_iff.mpr ⟨h1, h2⟩]

theorem round2_le_round2 {a b : ℚ} (h : a ≤ b) : round2 a ≤ round2 b := by
  rw [round2, round2]
  have hr : round (a * 100) ≤ round (b * 100) := by
    rw [round_eq, round_eq]
    exact Int.floor_le_floor (by linarith)
  have hc : ((round (a * 100) : ℤ) : ℚ) ≤ ((round (b * 100) : ℤ) : ℚ) := by
    exact_mod_cast hr
  linarith

theorem uniformV_lb {t : Tape} {k : ℕ} {a b : ℚ} (h0 : 0 ≤ t k) (hab : a ≤ b) :
    a ≤ uniformV t k a b := by
  rw [uniformV]
  nlinarith

theorem uniformV_ub {t : Tape} {k : ℕ} {a b : ℚ} (h1 : t k < 1)
    (hab : a ≤ b) : uniformV t k a b ≤ b := by
  rw [uniformV]
  nlinarith

theorem randintV_lb {t : Tape} {k : ℕ} {a b : ℤ} (h0 : 0 ≤ t k) (hab : a ≤ b) :
    a ≤ randintV t k a b := by
  rw [randintV]
  have hba : (0 : ℚ) ≤ ((b - a + 1 : ℤ) : ℚ) := by
    have hc : (a : ℚ) ≤ (b : ℚ) := by exact_mod_cast hab
    push_cast
    linarith
  have hf : (0 : ℤ) ≤ ⌊t k * ((b - a + 1 : ℤ) : ℚ)⌋ :=
    Int.floor_nonneg.mpr (mul_nonneg h0 hba)
  linarith

theorem randintV_ub {t : Tape} {k : ℕ} {a b : ℤ} (h1 : t k < 1)
    (hab : a ≤ b) : randintV t k a b ≤ b := by
  rw [randintV]
  have hpos : (0 : ℚ) < ((b - a + 1 : ℤ) : ℚ) := by
    have hc : (a : ℚ) ≤ (b : ℚ) := by exact_mod_cast hab
    push_cast
    linarith
  have hf : ⌊t k * ((b - a + 1 : ℤ) : ℚ)⌋ < b - a + 1 := by
    apply Int.floor_lt.mpr
    calc t k * ((b - a + 1 : ℤ) : ℚ) < 1 * ((b - a + 1 : ℤ) : ℚ) :=
          mul_lt_mul_of_pos_right h1 hpos
      _ = ((b - a + 1 : ℤ) : ℚ) := one_mul _
  linarith

theorem InRange_halfTape : InRange halfTape :=
  fun _ => ⟨by norm_num [halfTape], by norm_num [halfTape]⟩

/-- The total of every sales row is `round2` of
`sales·(1 − discount/100) + tax + shipping` on the row's final values,
whichever branches fired. -/
theorem salesCore_total (t : Tape) (i : ℤ) (k : ℕ) :
    (salesCore t i k).1.total =
      round2 ((salesCore t i k).1.sales * (1 - ((salesCore t i k).1.discount : ℚ) / 100) +
        (salesCore t i k).1.tax + (salesCore t i k).1.shipping) := by
  rw [salesCore]
  by_cases h1 : t (k+5) < 2/100 ∧ 100 < i
  · simp only [if_pos h1]
    by_cases h2 : t (k+7) < 1/100
    · simp only [if_pos h2]
      congr 1
      ring
    · simp only [if_neg h2]
      congr 1
      ring
  · simp only [if_neg h1]
    by_cases h2 : t (k+6) < 1/100
    · simp only [if_pos h2]
      congr 1
      ring
    · simp only [if_neg h2]
      congr 1
      ring

/-- The first sales row on the constant-`1/2` tape, fully evaluated. -/
theorem salesCore_half : salesCore halfTape 1 0 =
    ({ dateDay := 19175, salesBase := 2505, quantity := 11, discount := 15,
       tax := 1002/5, shipping := 25, transaction_id := 1, dupFired := false,
       outlierFired := false, sales := 2505, total := 47093/20,
       season := "Summer" }, 7) := by
  have d1 : daysFromCivil 2020 1 1 = 18262 := by decide
  have d2 : daysFromCivil 2024 12 31 = 20088 := by decide
  have hdate : randintV halfTape 0 0 (20088 - 18262) = 0 + 913 :=
    randintV_eval (1/2) rfl _ _ 913 (by norm_num) (by norm_num)
  have hq : randintV halfTape 2 1 20 = 1 + 10 :=
    randintV_eval (1/2) rfl _ _ 10 (by norm_num) (by norm_num)
  have hd : choiceV halfTape 3 discounts 0 = 15 := by
    rw [choiceV_eval (1/2) rfl discounts 0 3 (by norm_num [discounts]) (by norm_num [discounts])]
    decide
  have r1 : round2 (uniformV halfTape 1 10 5000) = 2505 :=
    round2_eq (n := 250500)
      (by rw [uniformV]; norm_num [halfTape]) (by rw [uniformV]; norm_num [halfTape])
      (by norm_num)
  have r2 : round2 ((1002 : ℚ)/5) = 1002/5 :=
    round2_eq (n := 20040) (by norm_num) (by norm_num) (by norm_num)
  have r3 : round2 (uniformV halfTape 4 0 50) = 25 :=
    round2_eq (n := 2500)
      (by rw [uniformV]; norm_num [halfTape]) (by rw [uniformV]; norm_num [halfTape])
      (by norm_num)
  have r4 : round2 ((47093 : ℚ)/20) = 47093/20 :=
    round2_eq (n := 235465) (by norm_num) (by norm_num) (by norm_num)
  have hseason : seasonOf (monthOf 19175) = "Summer" := by decide
  rw [salesCore, random_date, d1, d2, hdate]
  norm_num [halfTape, hq, hd, r1, r2, r3, r4, hseason]

/-! # The claims -/

/-- C1: the whole generation is a deterministic function of the seeded PRNG
stream alone — two runs whose streams agree draw-for-draw produce identical
contents for all four output files; no other source of nondeterminism enters
`generateAll`. -/
theorem seed_determinism (t t' : Tape) (h : ∀ n, t n = t' n) :
    generateAll t = generateAll t' := by
  have ht : t = t' := funext h
  rw [ht]

theorem seed_determinism_witness : generateAll halfTape = generateAll halfTape :=
  seed_determinism halfTape halfTape (fun _ => rfl)

/-- C2: in every sales row whose `sales_amount`, `discount_percent`,
`tax_amount`, `shipping_cost` and `total_amount` cells are all non-missing,
the emitted values satisfy
`total = round2 (sales*(1 - discount/100) + tax + shipping)` — exactly, in
the rational model of Python floats — including rows whose `sales_amount`
was resampled by outlier injection. -/
theorem sales_total_consistent (t : Tape) (i : ℤ) (k : ℕ) (s tx sh tot : ℚ) (d : ℤ)
    (hs : (salesCells t i k).1.get? 6 = some (Cell.rat s))
    (hd : (salesCells t i k).1.get? 8 = some (Cell.int d))
    (htx : (salesCells t i k).1.get? 9 = some (Cell.rat tx))
    (hsh : (salesCells t i k).1.get? 10 = some (Cell.rat sh))
    (htot : (salesCells t i k).1.get? 11 = some (Cell.rat tot)) :
    tot = round2 (s * (1 - (d : ℚ) / 100) + tx + sh) := by
  simp only [salesCells, salesWriter, add_missing_values] at hs hd htx hsh htot
  norm_num [List.get?] at hs hd htx hsh htot
  split at hs
  · simp at hs
  split at hd
  · simp at hd
  split at htx
  · simp at htx
  split at hsh
  · simp at hsh
  split at htot
  · simp at htot
  rw [Cell.rat.injEq] at hs htx hsh htot
  rw [Cell.int.injEq] at hd
  rw [← hs, ← hd, ← htx, ← hsh, ← htot]
  exact salesCore_total t i k

theorem sales_total_consistent_witness :
    (salesCells halfTape 1 0).1.get? 6 = some (Cell.rat 2505) ∧
    (47093/20 : ℚ) = round2 (2505 * (1 - ((15 : ℤ) : ℚ) / 100) + 1002/5 + 25) := by
  have hs : (salesCells halfTape 1 0).1.get? 6 = some (Cell.rat 2505) := by
    simp only [salesCells, salesCore_half, salesWriter, add_missing_values]
    norm_num [halfTape]
  have hd : (salesCells halfTape 1 0).1.get? 8 = some (Cell.int 15) := by
    simp only [salesCells, salesCore_half, salesWriter, add_missing_values]
    norm_num [halfTape]
  have htx : (salesCells halfTape 1 0).1.get? 9 = some (Cell.rat (1002/5)) := by
    simp only [salesCells, salesCore_half, salesWriter, add_missing_values]
    norm_num [halfTape]
  have hsh : (salesCells halfTape 1 0).1.get? 10 = some (Cell.rat 25) := by
    simp only [salesCells, salesCore_half, salesWriter, add_missing_values]
    norm_num [halfTape]
  have htot : (salesCells halfTape 1 0).1.get? 11 = some (Cell.rat (47093/20)) := by
    simp only [salesCells, salesCore_half, salesWriter, add_missing_values]
    norm_num [halfTape]
  exact ⟨hs, sales_total_consistent halfTape 1 0 2505 (1002/5) 25 (47093/20) 15
    hs hd htx hsh htot⟩

/-- C3 (amended): the sales loop's per-row order is: sample base fields →
compute derived fields → possibly override the identifier for duplication →
possibly override `sales_amount` with an outlier value and recompute `total`
→ apply per-field missingness last.  (The source applies the duplicate
override BEFORE the outlier override, not after it as the spec states.) -/
theorem sales_step_order (t : Tape) (i : ℤ) (k : ℕ) :
    salesCore t i k = stageOutlier t (stageDup t i (stageBase t i k)) ∧
    salesCells t i k =
      salesWriter t (stageOutlier t (stageDup t i (stageBase t i k))).1
        (stageOutlier t (stageDup t i (stageBase t i k))).2 := by
  have hcore : salesCore t i k = stageOutlier t (stageDup t i (stageBase t i k)) := by
    rw [salesCore, stageBase, stageDup]
    by_cases h1 : t (k+5) < 2/100 ∧ 100 < i
    · simp only [if_pos h1, decide_eq_true h1]
      rw [stageOutlier]
      by_cases h2 : t (k+7) < 1/100
      · simp only [if_pos h2, decide_eq_true h2]
      · simp only [if_neg h2, decide_eq_false h2]
    · simp only [if_neg h1, decide_eq_false h1]
      rw [stageOutlier]
      by_cases h2 : t (k+6) < 1/100
      · simp only [if_pos h2, decide_eq_true h2]
      · simp only [if_neg h2, decide_eq_false h2]
  exact ⟨hcore, by rw [salesCells, hcore]⟩

theorem sales_step_order_counterexample :
    InRange tapeOrder ∧
    (salesCore tapeOrder 101 0).1.transaction_id = 1 ∧
    (salesCoreSpecOrder tapeOrder 101 0).1.transaction_id = 51 ∧
    (salesCore tapeOrder 101 0).1 ≠ (salesCoreSpecOrder tapeOrder 101 0).1 := by
  have hIR : InRange tapeOrder := by
    intro n
    simp only [tapeOrder]
    split_ifs <;> norm_num
  have hdup : tapeOrder 5 < 2/100 ∧ (100 : ℤ) < 101 := by
    constructor
    · norm_num [tapeOrder]
    · norm_num
  have hc : (salesCore tapeOrder 101 0).1.transaction_id = 1 := by
    rw [salesCore]
    simp only [if_pos hdup]
    have hr : randintV tapeOrder (0+6) 1 (101-1) = 1 + 0 :=
      randintV_eval (t := tapeOrder) (k := 0+6) 0 rfl 1 (101-1) 0
        (by norm_num) (by norm_num)
    rw [hr]
    norm_num
  have hno : ¬ tapeOrder 5 < 1/100 := by norm_num [tapeOrder]
  have hdup2 : tapeOrder 6 < 2/100 ∧ (100 : ℤ) < 101 := by
    constructor
    · norm_num [tapeOrder]
    · norm_num
  have hsp : (salesCoreSpecOrder tapeOrder 101 0).1.transaction_id = 51 := by
    rw [salesCoreSpecOrder, stageBase, stageOutlier]
    simp only [if_neg hno]
    rw [stageDup]
    simp only [if_pos hdup2]
    have hr2 : randintV tapeOrder (0+5+1+1) 1 (101-1) = 1 + 50 :=
      randintV_eval (t := tapeOrder) (k := 0+5+1+1) (1/2) rfl 1 (101-1) 50
        (by norm_num) (by norm_num)
    rw [hr2]
    norm_num
  refine ⟨hIR, hc, hsp, fun he => ?_⟩
  rw [he, hsp] at hc
  exact absurd hc (by norm_num)

/-- C4 (amended): the outlier override recomputes only `total_amount` from
the resampled `sales_amount`; `tax_amount` is NOT recomputed — it always
equals `round2` of 8% of the originally sampled `sales_amount`
(`salesBase`), while `total` is recomputed from the final `sales`. -/
theorem sales_tax_stale (t : Tape) (i : ℤ) (k : ℕ) :
    (salesCore t i k).1.tax = round2 ((salesCore t i k).1.salesBase * (8/100)) ∧
    (salesCore t i k).1.total = round2 ((salesCore t i k).1.sales -
      (salesCore t i k).1.sales * ((salesCore t i k).1.discount : ℚ) / 100 +
      (salesCore t i k).1.tax + (salesCore t i k).1.shipping) := by
  rw [salesCore]
  by_cases h1 : t (k+5) < 2/100 ∧ 100 < i
  · simp only [if_pos h1]
    by_cases h2 : t (k+7) < 1/100
    · simp only [if_pos h2]
      constructor <;> trivial
    · simp only [if_neg h2]
      constructor <;> trivial
  · simp only [if_neg h1]
    by_cases h2 : t (k+6) < 1/100
    · simp only [if_pos h2]
      constructor <;> trivial
    · simp only [if_neg h2]
      constructor <;> trivial

theorem sales_tax_stale_counterexample :
    InRange tapeOutlier ∧
    (salesCore tapeOutlier 1 0).1.outlierFired = true ∧
    (salesCells tapeOutlier 1 0).1.get? 6 = some (Cell.rat 30000) ∧
    (salesCells tapeOutlier 1 0).1.get? 9 = some (Cell.rat (1002/5)) ∧
    (1002/5 : ℚ) ≠ round2 (30000 * (8/100)) := by
  have hIR : InRange tapeOutlier := by
    intro n
    simp only [tapeOutlier]
    split_ifs <;> norm_num
  have d1 : daysFromCivil 2020 1 1 = 18262 := by decide
  have d2 : daysFromCivil 2024 12 31 = 20088 := by decide
  have hdate : randintV tapeOutlier 0 0 (20088 - 18262) = 0 + 913 :=
    randintV_eval (1/2) rfl _ _ 913 (by norm_num) (by norm_num)
  have hq : randintV tapeOutlier 2 1 20 = 1 + 10 :=
    randintV_eval (1/2) rfl _ _ 10 (by norm_num) (by norm_num)
  have hd : choiceV tapeOutlier 3 discounts 0 = 15 := by
    rw [choiceV_eval (1/2) rfl discounts 0 3 (by norm_num [discounts]) (by norm_num [discounts])]
    decide
  have r1 : round2 (uniformV tapeOutlier 1 10 5000) = 2505 :=
    round2_eq (n := 250500)
      (by rw [uniformV]; norm_num [tapeOutlier]) (by rw [uniformV]; norm_num [tapeOutlier])
      (by norm_num)
  have r2 : round2 ((1002 : ℚ)/5) = 1002/5 :=
    round2_eq (n := 20040) (by norm_num) (by norm_num) (by norm_num)
  have r3 : round2 (uniformV tapeOutlier 4 0 50) = 25 :=
    round2_eq (n := 2500)
      (by rw [uniformV]; norm_num [tapeOutlier]) (by rw [uniformV]; norm_num [tapeOutlier])
      (by norm_num)
  have r5 : round2 (uniformV tapeOutlier 7 10000 50000) = 30000 :=
    round2_eq (n := 3000000)
      (by rw [uniformV]; norm_num [tapeOutlier]) (by rw [uniformV]; norm_num [tapeOutlier])
      (by norm_num)
  have r6 : round2 ((128627 : ℚ)/5) = 128627/5 :=
    round2_eq (n := 2572540) (by norm_num) (by norm_num) (by norm_num)
  have hseason : seasonOf (monthOf 19175) = "Summer" := by decide
  have hcore : salesCore tapeOutlier 1 0 =
      ({ dateDay := 19175, salesBase := 2505, quantity := 11, discount := 15,
         tax := 1002/5, shipping := 25, transaction_id := 1, dupFired := false,
         outlierFired := true, sales := 30000, total := 128627/5,
         season := "Summer" }, 8) := by
    rw [salesCore, random_date, d1, d2, hdate]
    norm_num [tapeOutlier, hq, hd, r1, r2, r3, r5, r6, hseason]
  refine ⟨hIR, ?_, ?_, ?_, ?_⟩
  · rw [hcore]
  · simp only [salesCells, hcore, salesWriter, add_missing_values]
    norm_num [tapeOutlier]
  · simp only [salesCells, hcore, salesWriter, add_missing_values]
    norm_num [tapeOutlier]
  · have : round2 ((30000 : ℚ) * (8/100)) = 2400 :=
      round2_eq (n := 240000) (by norm_num) (by norm_num) (by norm_num)
    rw [this]
    norm_num

theorem round2_five_thousand : round2 (5000 : ℚ) = 5000 :=
  round2_eq (n := 500000) (by norm_num) (by norm_num) (by norm_num)

theorem round2_ten_thousand : round2 (10000 : ℚ) = 10000 :=
  round2_eq (n := 1000000) (by norm_num) (by norm_num) (by norm_num)

/-- Bounds for the sales `sales_amount` on `[0,1)` draws: at most 5000 when
the outlier branch did not fire, at least 10000 when it did. -/
theorem sales_outlier_bounds (t : Tape) (i : ℤ) (k : ℕ) (h : InRange t) :
    ((salesCore t i k).1.outlierFired = false → (salesCore t i k).1.sales ≤ 5000) ∧
    ((salesCore t i k).1.outlierFired = true → 10000 ≤ (salesCore t i k).1.sales) := by
  rw [salesCore]
  by_cases h1 : t (k+5) < 2/100 ∧ 100 < i
  · simp only [if_pos h1]
    by_cases h2 : t (k+7) < 1/100
    · simp only [if_pos h2, decide_eq_true h2]
      refine ⟨fun hf => absurd hf (by decide), fun _ => ?_⟩
      calc (10000 : ℚ) = round2 10000 := round2_ten_thousand.symm
        _ ≤ round2 (uniformV t (k+7+1) 10000 50000) :=
            round2_le_round2 (uniformV_lb (h _).1 (by norm_num))
    · simp only [if_neg h2, decide_eq_false h2]
      refine ⟨fun _ => ?_, fun hf => absurd hf (by decide)⟩
      calc round2 (uniformV t (k+1) 10 5000) ≤ round2 5000 :=
            round2_le_round2 (uniformV_ub (h _).2 (by norm_num))
        _ = 5000 := round2_five_thousand
  · simp only [if_neg h1]
    by_cases h2 : t (k+6) < 1/100
    · simp only [if_pos h2, decide_eq_true h2]
      refine ⟨fun hf => absurd hf (by decide), fun _ => ?_⟩
      calc (10000 : ℚ) = round2 10000 := round2_ten_thousand.symm
        _ ≤ round2 (uniformV t (k+6+1) 10000 50000) :=
            round2_le_round2 (uniformV_lb (h _).1 (by norm_num))
    · simp only [if_neg h2, decide_eq_false h2]
      refine ⟨fun _ => ?_, fun hf => absurd hf (by decide)⟩
      calc round2 (uniformV t (k+1) 10 5000) ≤ round2 5000 :=
            round2_le_round2 (uniformV_ub (h _).2 (by norm_num))
        _ = 5000 := round2_five_thousand

/-- Bounds for the product `selling_price` on `[0,1)` draws. -/
theorem product_outlier_bounds (t : Tape) (k : ℕ) (h : InRange t) :
    ((productCore t k).1.outlierFired = false → (productCore t k).1.selling ≤ 1500) ∧
    ((productCore t k).1.outlierFired = true → 5000 ≤ (productCore t k).1.selling) := by
  have hcost_ub : round2 (uniformV t (k+1) 5 500) ≤ 500 := by
    calc round2 (uniformV t (k+1) 5 500) ≤ round2 500 :=
          round2_le_round2 (uniformV_ub (h _).2 (by norm_num))
      _ = 500 := round2_eq (n := 50000) (by norm_num) (by norm_num) (by norm_num)
  have hcost_lb : (5 : ℚ) ≤ round2 (uniformV t (k+1) 5 500) := by
    calc (5 : ℚ) = round2 5 :=
          (round2_eq (n := 500) (by norm_num) (by norm_num) (by norm_num)).symm
      _ ≤ round2 (uniformV t (k+1) 5 500) :=
          round2_le_round2 (uniformV_lb (h _).1 (by norm_num))
  have hm_ub : uniformV t (k+2) (12/10) 3 ≤ 3 := uniformV_ub (h _).2 (by norm_num)
  have hm_lb : (12/10 : ℚ) ≤ uniformV t (k+2) (12/10) 3 := uniformV_lb (h _).1 (by norm_num)
  rw [productCore]
  by_cases h2 : t (k+3) < 1/100
  · simp only [if_pos h2, decide_eq_true h2]
    refine ⟨fun hf => absurd hf (by decide), fun _ => ?_⟩
    calc (5000 : ℚ) = round2 5000 := round2_five_thousand.symm
      _ ≤ round2 (uniformV t (k+4) 5000 20000) :=
          round2_le_round2 (uniformV_lb (h _).1 (by norm_num))
  · simp only [if_neg h2, decide_eq_false h2]
    refine ⟨fun _ => ?_, fun hf => absurd hf (by decide)⟩
    calc round2 (round2 (uniformV t (k+1) 5 500) * uniformV t (k+2) (12/10) 3)
        ≤ round2 (500 * 3) := by
          apply round2_le_round2
          have := mul_le_mul hcost_ub hm_ub (by linarith) (by norm_num)
          linarith
      _ = 1500 := by
          norm_num
          exact round2_eq (n := 150000) (by norm_num) (by norm_num) (by norm_num)

/-- Bounds for the campaign `budget` on `[0,1)` draws. -/
theorem campaign_outlier_bounds (t : Tape) (k : ℕ) (h : InRange t) :
    ((campaignCore t k).1.outlierFired = false → (campaignCore t k).1.budget ≤ 100000) ∧
    ((campaignCore t k).1.outlierFired = true → 500000 ≤ (campaignCore t k).1.budget) := by
  rw [campaignCore]
  by_cases h2 : t (k+8) < 1/100
  · simp only [if_pos h2, decide_eq_true h2]
    refine ⟨fun hf => absurd hf (by decide), fun _ => ?_⟩
    calc (500000 : ℚ)
        = round2 500000 :=
          (round2_eq (n := 50000000) (by norm_num) (by norm_num) (by norm_num)).symm
      _ ≤ round2 (uniformV t (k+9) 500000 2000000) :=
          round2_le_round2 (uniformV_lb (h _).1 (by norm_num))
  · simp only [if_neg h2, decide_eq_false h2]
    refine ⟨fun _ => ?_, fun hf => absurd hf (by decide)⟩
    calc round2 (uniformV t (k+2) 1000 100000) ≤ round2 100000 :=
          round2_le_round2 (uniformV_ub (h _).2 (by norm_num))
      _ = 100000 :=
          round2_eq (n := 10000000) (by norm_num) (by norm_num) (by norm_num)

/-- C5 (amended): the outlier resampling range is strictly above every value
the normal generation path can produce for sales `sales_amount` (≤ 5000 vs
≥ 10000), product `selling_price` (≤ 1500 vs ≥ 5000) and campaign `budget`
(≤ 100000 vs ≥ 500000); for customer `lifetime_value` the claimed
disjointness FAILS — the normal path reaches values inside the outlier range
`[50000, 200000]` (see the counterexample). -/
theorem outlier_range_disjointness (t : Tape) (i : ℤ) (k : ℕ) (h : InRange t) :
    ((salesCore t i k).1.outlierFired = false → (salesCore t i k).1.sales ≤ 5000) ∧
    ((salesCore t i k).1.outlierFired = true → 10000 ≤ (salesCore t i k).1.sales) ∧
    ((productCore t k).1.outlierFired = false → (productCore t k).1.selling ≤ 1500) ∧
    ((productCore t k).1.outlierFired = true → 5000 ≤ (productCore t k).1.selling) ∧
    ((campaignCore t k).1.outlierFired = false → (campaignCore t k).1.budget ≤ 100000) ∧
    ((campaignCore t k).1.outlierFired = true → 500000 ≤ (campaignCore t k).1.budget) :=
  ⟨(sales_outlier_bounds t i k h).1, (sales_outlier_bounds t i k h).2,
   (product_outlier_bounds t k h).1, (product_outlier_bounds t k h).2,
   (campaign_outlier_bounds t k h).1, (campaign_outlier_bounds t k h).2⟩

theorem outlier_range_disjointness_witness :
    (salesCore halfTape 1 0).1.sales ≤ 5000 :=
  (outlier_range_disjointness halfTape 1 0 InRange_halfTape).1 (by rw [salesCore_half])

theorem lifetime_value_overlap_counterexample :
    InRange tapeOrders ∧
    (customerCore tapeOrders 0).1.outlierFired = false ∧
    (customerCore tapeOrders 0).1.lifetime_value = 52000 ∧
    ((50000 : ℚ) ≤ 52000 ∧ (52000 : ℚ) ≤ 200000) := by
  have hIR : InRange tapeOrders := by
    intro n
    simp only [tapeOrders]
    split_ifs <;> norm_num
  have hlp : (1 : ℚ)/10 < tapeOrders (0+1) := by norm_num [tapeOrders]
  have hno : ¬ tapeOrders (0+3+2) < 1/100 := by norm_num [tapeOrders]
  have hord : randintV tapeOrders (0+3) 0 200 = 0 + 200 :=
    randintV_eval (t := tapeOrders) (k := 0+3) (999/1000) rfl 0 200 200
      (by norm_num) (by norm_num)
  have havg : round2 (uniformV tapeOrders (0+3+1) 20 500) = 260 :=
    round2_eq (n := 26000)
      (by rw [uniformV]; norm_num [tapeOrders]) (by rw [uniformV]; norm_num [tapeOrders])
      (by norm_num)
  have hltv : round2 ((52000 : ℚ)) = 52000 :=
    round2_eq (n := 5200000) (by norm_num) (by norm_num) (by norm_num)
  refine ⟨hIR, ?_, ?_, by norm_num, by norm_num⟩
  · rw [customerCore]
    simp only [if_pos hlp, if_neg hno, decide_eq_false hno]
  · rw [customerCore]
    simp only [if_pos hlp, if_neg hno]
    rw [hord, havg]
    norm_num [hltv]

/-- C9: the divisor in every product row's `profit_margin` computation — the
row's `selling_price` — is strictly positive in both the normal and the
outlier branch, so the division never divides by zero, and the emitted
margin is `round2 ((selling − cost)/selling · 100)`. -/
theorem profit_margin_divisor_pos (t : Tape) (k : ℕ) (h : InRange t) :
    0 < (productCore t k).1.selling ∧
    (productCore t k).1.profit_margin =
      round2 ((((productCore t k).1.selling - (productCore t k).1.cost) /
        (productCore t k).1.selling) * 100) := by
  rw [productCore]
  by_cases h2 : t (k+3) < 1/100
  · simp only [if_pos h2]
    refine ⟨?_, trivial⟩
    calc (0 : ℚ) < 5000 := by norm_num
      _ = round2 5000 := round2_five_thousand.symm
      _ ≤ round2 (uniformV t (k+4) 5000 20000) :=
          round2_le_round2 (uniformV_lb (h _).1 (by norm_num))
  · simp only [if_neg h2]
    refine ⟨?_, trivial⟩
    have hcost_lb : (5 : ℚ) ≤ round2 (uniformV t (k+1) 5 500) := by
      calc (5 : ℚ) = round2 5 :=
            (round2_eq (n := 500) (by norm_num) (by norm_num) (by norm_num)).symm
        _ ≤ round2 (uniformV t (k+1) 5 500) :=
            round2_le_round2 (uniformV_lb (h _).1 (by norm_num))
    have hm_lb : (12/10 : ℚ) ≤ uniformV t (k+2) (12/10) 3 := uniformV_lb (h _).1 (by norm_num)
    have hprod : (6 : ℚ) ≤ round2 (uniformV t (k+1) 5 500) * uniformV t (k+2) (12/10) 3 := by
      have := mul_le_mul hcost_lb hm_lb (by norm_num) (by linarith)
      linarith
    calc (0 : ℚ) < 6 := by norm_num
      _ = round2 6 := (round2_eq (n := 600) (by norm_num) (by norm_num) (by norm_num)).symm
      _ ≤ round2 (round2 (uniformV t (k+1) 5 500) * uniformV t (k+2) (12/10) 3) :=
          round2_le_round2 hprod

theorem profit_margin_divisor_pos_witness :
    0 < (productCore halfTape 0).1.selling ∧
    (productCore halfTape 0).1.profit_margin =
      round2 ((((productCore halfTape 0).1.selling - (productCore halfTape 0).1.cost) /
        (productCore halfTape 0).1.selling) * 100) :=
  profit_margin_divisor_pos halfTape 0 InRange_halfTape

/-- C7 (amended): every campaign row has `clicks ≥ 10 > 0` (so the
division-by-zero guard's zero branch never fires), and the emitted
`cost_per_click` equals `round2(spendBase/clicks)` computed from the
PRE-outlier spend (`spendBase`); on rows where the outlier branch does not
fire the emitted `spend` equals `spendBase`, so `cpc = round2(spend/clicks)`
holds with the emitted spend exactly there. -/
theorem cpc_formula (t : Tape) (k : ℕ) (h : InRange t) :
    0 < (campaignCore t k).1.clicks ∧
    (campaignCore t k).1.cpc =
      round2 ((campaignCore t k).1.spendBase / (((campaignCore t k).1.clicks : ℤ) : ℚ)) ∧
    ((campaignCore t k).1.outlierFired = false →
      (campaignCore t k).1.spend = (campaignCore t k).1.spendBase) := by
  have himp : (1000 : ℤ) ≤ randintV t (k+4) 1000 1000000 :=
    randintV_lb (h _).1 (by norm_num)
  have hcap : (10 : ℤ) ≤ ⌊((randintV t (k+4) 1000 1000000 : ℤ) : ℚ) * (1/10)⌋ := by
    apply Int.le_floor.mpr
    have hc : ((1000 : ℤ) : ℚ) ≤ ((randintV t (k+4) 1000 1000000 : ℤ) : ℚ) := by
      exact_mod_cast himp
    push_cast at hc ⊢
    linarith
  have hclicks : (10 : ℤ) ≤
      randintV t (k+5) 10 ⌊((randintV t (k+4) 1000 1000000 : ℤ) : ℚ) * (1/10)⌋ :=
    randintV_lb (h _).1 hcap
  have hpos : (0 : ℤ) <
      randintV t (k+5) 10 ⌊((randintV t (k+4) 1000 1000000 : ℤ) : ℚ) * (1/10)⌋ :=
    lt_of_lt_of_le (by norm_num) hclicks
  rw [campaignCore]
  by_cases h2 : t (k+8) < 1/100
  · simp only [if_pos h2, decide_eq_true h2]
    refine ⟨hpos, ?_, fun hf => absurd hf (by decide)⟩
    rw [if_pos hpos]
  · simp only [if_neg h2, decide_eq_false h2]
    refine ⟨hpos, ?_, fun _ => trivial⟩
    rw [if_pos hpos]

theorem cpc_formula_witness :
    0 < (campaignCore halfTape 0).1.clicks ∧
    (campaignCore halfTape 0).1.cpc =
      round2 ((campaignCore halfTape 0).1.spendBase /
        (((campaignCore halfTape 0).1.clicks : ℤ) : ℚ)) :=
  ⟨(cpc_formula halfTape 0 InRange_halfTape).1,
   (cpc_formula halfTape 0 InRange_halfTape).2.1⟩

theorem cpc_stale_spend_counterexample :
    InRange tapeSpend ∧
    (campaignCore tapeSpend 0).1.outlierFired = true ∧
    (campaignCells tapeSpend 1 0).1.get? 12 = some (Cell.int 25030) ∧
    (campaignCells tapeSpend 1 0).1.get? 10 = some (Cell.rat 1125000) ∧
    (campaignCells tapeSpend 1 0).1.get? 16 = some (Cell.rat (161/100)) ∧
    ((0 : ℤ) < 25030 ∧ (161/100 : ℚ) ≠ round2 ((1125000 : ℚ) / 25030)) := by
  have hIR : InRange tapeSpend := by
    intro n
    simp only [tapeSpend]
    split_ifs <;> norm_num
  have hout : tapeSpend (0+8) < 1/100 := by norm_num [tapeSpend]
  have himp : randintV tapeSpend (0+4) 1000 1000000 = 1000 + 499500 :=
    randintV_eval (t := tapeSpend) (k := 0+4) (1/2) rfl 1000 1000000 499500
      (by norm_num) (by norm_num)
  have hcap : ⌊(((1000 + 499500 : ℤ) : ℤ) : ℚ) * (1/10)⌋ = (50050 : ℤ) := by
    apply floorQ_eq
    · push_cast
      norm_num
    · push_cast
      norm_num
  have hclicks : randintV tapeSpend (0+5) 10 50050 = 10 + 25020 :=
    randintV_eval (t := tapeSpend) (k := 0+5) (1/2) rfl 10 50050 25020
      (by norm_num) (by norm_num)
  have hb0 : round2 (uniformV tapeSpend (0+2) 1000 100000) = 50500 :=
    round2_eq (n := 5050000)
      (by rw [uniformV]; norm_num [tapeSpend]) (by rw [uniformV]; norm_num [tapeSpend])
      (by norm_num)
  have hs0 : round2 ((50500 : ℚ) * uniformV tapeSpend (0+3) (5/10) (11/10)) = 40400 :=
    round2_eq (n := 4040000)
      (by rw [uniformV]; norm_num [tapeSpend]) (by rw [uniformV]; norm_num [tapeSpend])
      (by norm_num)
  have hb2 : round2 (uniformV tapeSpend (0+9) 500000 2000000) = 1250000 :=
    round2_eq (n := 125000000)
      (by rw [uniformV]; norm_num [tapeSpend]) (by rw [uniformV]; norm_num [tapeSpend])
      (by norm_num)
  have hs2 : round2 ((1250000 : ℚ) * uniformV tapeSpend (0+10) (8/10) 1) = 1125000 :=
    round2_eq (n := 112500000)
      (by rw [uniformV]; norm_num [tapeSpend]) (by rw [uniformV]; norm_num [tapeSpend])
      (by norm_num)
  have hcpcv : round2 ((40400 : ℚ) / (((10 + 25020 : ℤ) : ℤ) : ℚ)) = 161/100 := by
    apply round2_eq (n := 161)
    · push_cast
      norm_num
    · push_cast
      norm_num
    · norm_num
  have hkpos : (campaignCore tapeSpend 0).2 = 12 := by
    rw [campaignCore]
    simp only [if_pos hout]
  have hspend : (campaignCore tapeSpend 0).1.spend = 1125000 := by
    rw [campaignCore]
    simp only [if_pos hout]
    rw [hb2, hs2]
  have hclk : (campaignCore tapeSpend 0).1.clicks = 25030 := by
    rw [campaignCore]
    simp only [if_pos hout]
    rw [himp, hcap, hclicks]
    norm_num
  have hcpc : (campaignCore tapeSpend 0).1.cpc = 161/100 := by
    rw [campaignCore]
    simp only [if_pos hout]
    rw [himp, hcap, hclicks, if_pos (show (0:ℤ) < 10 + 25020 by norm_num), hb0, hs0, hcpcv]
  have hfired : (campaignCore tapeSpend 0).1.outlierFired = true := by
    rw [campaignCore]
    simp only [if_pos hout, decide_eq_true hout]
  have hne : round2 ((1125000 : ℚ) / 25030) = 899/20 :=
    round2_eq (n := 4495) (by norm_num) (by norm_num) (by norm_num)
  refine ⟨hIR, hfired, ?_, ?_, ?_, by norm_num, ?_⟩
  · rw [campaignCells, hkpos]
    simp only [campaignWriter, add_missing_values]
    norm_num [tapeSpend, hclk]
  · rw [campaignCells, hkpos]
    simp only [campaignWriter, add_missing_values]
    norm_num [tapeSpend, hspend]
  · rw [campaignCells, hkpos]
    simp only [campaignWriter, add_missing_values]
    norm_num [tapeSpend, hcpc]
  · rw [hne]
    norm_num

/-- C10: an empty cell can be emitted even when the per-field missingness
draw does not fire: the campaign `a_b_test_variant` choice vocabulary
contains `None` (serialized as an empty cell), and the customer
`last_purchase_date` is the empty string whenever no last purchase was
sampled (the `random() ≤ 0.1` case) — so an empty cell in these columns does
not imply corruption. -/
theorem empty_cell_without_corruption (t : Tape) (h : InRange t) :
    (∀ i k, ¬ t (k+8) < 1/100 → 3/4 ≤ t (k+39) → ¬ t (k+40) < 20/100 →
       (campaignCells t i k).1.get? 22 = some Cell.empty) ∧
    (∀ i k, ¬ 1/10 < t (k+1) → ¬ t (k+4) < 1/100 → ¬ t (k+33) < 15/100 →
       (customerCells t i k).1.get? 15 = some Cell.empty) := by
  constructor
  · intro i k h8 h39 h40
    have hk : (campaignCore t k).2 = k + 9 := by
      rw [campaignCore]
      simp only [if_neg h8]
    have e30 : k + 9 + 30 = k + 39 := by omega
    have e31 : k + 9 + 31 = k + 40 := by omega
    have hchoice : choiceV t (k+39) abVariants Cell.empty = Cell.empty := by
      rw [choiceV]
      have hlen : ((abVariants.length : ℕ) : ℚ) = 4 := by norm_num [abVariants]
      rw [hlen]
      have hf : ⌊t (k+39) * 4⌋ = 3 := by
        apply floorQ_eq
        · push_cast
          linarith
        · push_cast
          have := (h (k+39)).2
          linarith
      rw [hf]
      decide
    rw [campaignCells, hk]
    simp only [campaignWriter, add_missing_values, e30, e31, if_neg h40]
    norm_num [hchoice]
  · intro i k hlp h4 h33
    have e22 : k + 2 + 2 = k + 4 := by omega
    have hk2 : (customerCore t k).2 = k + 5 := by
      rw [customerCore]
      simp only [if_neg hlp, e22, if_neg h4]
    have hlpn : (customerCore t k).1.lastPurchase = none := by
      rw [customerCore]
      simp only [if_neg hlp, e22, if_neg h4]
    have e28 : k + 5 + 28 = k + 33 := by omega
    rw [customerCells, hk2]
    simp only [customerWriter, add_missing_values, e28, hlpn, if_neg h33]
    norm_num

theorem empty_cell_without_corruption_witness :
    InRange tapeEmpty ∧
    (campaignCells tapeEmpty 1 0).1.get? 22 = some Cell.empty ∧
    (customerCells tapeEmpty 1 0).1.get? 15 = some Cell.empty := by
  have hIR : InRange tapeEmpty := by
    intro n
    simp only [tapeEmpty]
    split_ifs <;> norm_num
  refine ⟨hIR, ?_, ?_⟩
  · exact (empty_cell_without_corruption tapeEmpty hIR).1 1 0
      (by norm_num [tapeEmpty]) (by norm_num [tapeEmpty]) (by norm_num [tapeEmpty])
  · exact (empty_cell_without_corruption tapeEmpty hIR).2 1 0
      (by norm_num [tapeEmpty]) (by norm_num [tapeEmpty]) (by norm_num [tapeEmpty])

theorem salesRowsAux_length (t : Tape) (n : ℕ) :
    ∀ i k, ((salesRowsAux t i k n).1).length = n := by
  induction n with
  | zero => intro i k; rfl
  | succ m ih => intro i k; simp [salesRowsAux, ih]

theorem salesRowsAux_rowlen (t : Tape) (n : ℕ) :
    ∀ i k, ∀ r ∈ (salesRowsAux t i k n).1, r.length = 22 := by
  induction n with
  | zero =>
      intro i k r hr
      simp [salesRowsAux] at hr
  | succ m ih =>
      intro i k r hr
      simp only [salesRowsAux, List.mem_cons] at hr
      rcases hr with h | h
      · subst h
        rfl
      · exact ih _ _ r h

theorem customerRowsAux_length (t : Tape) (n : ℕ) :
    ∀ i k, ((customerRowsAux t i k n).1).length = n := by
  induction n with
  | zero => intro i k; rfl
  | succ m ih => intro i k; simp [customerRowsAux, ih]

theorem customerRowsAux_rowlen (t : Tape) (n : ℕ) :
    ∀ i k, ∀ r ∈ (customerRowsAux t i k n).1, r.length = 21 := by
  induction n with
  | zero =>
      intro i k r hr
      simp [customerRowsAux] at hr
  | succ m ih =>
      intro i k r hr
      simp only [customerRowsAux, List.mem_cons] at hr
      rcases hr with h | h
      · subst h
        rfl
      · exact ih _ _ r h

theorem productRowsAux_length (t : Tape) (n : ℕ) :
    ∀ i k, ((productRowsAux t i k n).1).length = n := by
  induction n with
  | zero => intro i k; rfl
  | succ m ih => intro i k; simp [productRowsAux, ih]

theorem productRowsAux_rowlen (t : Tape) (n : ℕ) :
    ∀ i k, ∀ r ∈ (productRowsAux t i k n).1, r.length = 23 := by
  induction n with
  | zero =>
      intro i k r hr
      simp [productRowsAux] at hr
  | succ m ih =>
      intro i k r hr
      simp only [productRowsAux, List.mem_cons] at hr
      rcases hr with h | h
      · subst h
        rfl
      · exact ih _ _ r h

theorem campaignRowsAux_length (t : Tape) (n : ℕ) :
    ∀ i k, ((campaignRowsAux t i k n).1).length = n := by
  induction n with
  | zero => intro i k; rfl
  | succ m ih => intro i k; simp [campaignRowsAux, ih]

theorem campaignRowsAux_rowlen (t : Tape) (n : ℕ) :
    ∀ i k, ∀ r ∈ (campaignRowsAux t i k n).1, r.length = 24 := by
  induction n with
  | zero =>
      intro i k r hr
      simp [campaignRowsAux] at hr
  | succ m ih =>
      intro i k r hr
      simp only [campaignRowsAux, List.mem_cons] at hr
      rcases hr with h | h
      · subst h
        rfl
      · exact ih _ _ r h

/-- The `j`-th product row's first cell is either blanked or the loop index
`i + j` of line 173. -/
theorem productRowsAux_id (t : Tape) (n : ℕ) :
    ∀ i k j r, ((productRowsAux t i k n).1).get? j = some r →
      r.get? 0 = some Cell.empty ∨ r.get? 0 = some (Cell.int (i + j)) := by
  induction n with
  | zero =>
      intro i k j r hget
      simp [productRowsAux] at hget
  | succ m ih =>
      intro i k j r hget
      cases j with
      | zero =>
          simp only [productRowsAux, List.get?] at hget
          have hr : r = (productCells t i k).1 := by
            injection hget with hh
            exact hh.symm
          subst hr
          rw [productCells]
          simp only [productWriter, add_missing_values, List.get?]
          by_cases hc : t ((productCore t k).2) < 1/1000
          · left
            simp only [if_pos hc]
          · right
            simp only [if_neg hc, Option.some.injEq, Cell.int.injEq]
            norm_num
      | succ j' =>
          simp only [productRowsAux, List.get?] at hget
          rcases ih (i+1) _ j' r hget with hthis | hthis
          · exact Or.inl hthis
          · right
            rw [hthis]
            simp only [Option.some.injEq, Cell.int.injEq]
            push_cast
            ring

/-- C8: each of the four outputs is one header row plus exactly 25000 data
rows; every row (header included, corrupted cells included) has the declared
column count — 22 for sales, 21 for customer, 23 for product, 24 for
campaign — and the product rows' underlying ids are `1000 + j` for
`j = 0, …, 24999` (spanning 1000–25999), blanked only by missingness. -/
theorem files_shape (t : Tape) (k : ℕ) :
    ((sales_data t k).1.length = 25001 ∧
     (sales_data t k).1.head? = some salesHeader ∧
     salesHeader.length = 22 ∧
     (∀ r ∈ (sales_data t k).1, r.length = 22)) ∧
    ((customer_data t k).1.length = 25001 ∧
     (customer_data t k).1.head? = some customerHeader ∧
     customerHeader.length = 21 ∧
     (∀ r ∈ (customer_data t k).1, r.length = 21)) ∧
    ((product_data t k).1.length = 25001 ∧
     (product_data t k).1.head? = some productHeader ∧
     productHeader.length = 23 ∧
     (∀ r ∈ (product_data t k).1, r.length = 23) ∧
     (∀ j r, ((product_data t k).1.drop 1).get? j = some r →
        r.get? 0 = some Cell.empty ∨ r.get? 0 = some (Cell.int (1000 + j)))) ∧
    ((marketing_campaigns t k).1.length = 25001 ∧
     (marketing_campaigns t k).1.head? = some campaignHeader ∧
     campaignHeader.length = 24 ∧
     (∀ r ∈ (marketing_campaigns t k).1, r.length = 24)) := by
  refine ⟨⟨?_, rfl, rfl, ?_⟩, ⟨?_, rfl, rfl, ?_⟩, ⟨?_, rfl, rfl, ?_, ?_⟩,
    ⟨?_, rfl, rfl, ?_⟩⟩
  · simp [sales_data, salesRowsAux_length]
  · intro r hr
    simp only [sales_data, List.mem_cons] at hr
    rcases hr with h | h
    · subst h
      rfl
    · exact salesRowsAux_rowlen t 25000 1 k r h
  · simp [customer_data, customerRowsAux_length]
  · intro r hr
    simp only [customer_data, List.mem_cons] at hr
    rcases hr with h | h
    · subst h
      rfl
    · exact customerRowsAux_rowlen t 25000 1 k r h
  · simp [product_data, productRowsAux_length]
  · intro r hr
    simp only [product_data, List.mem_cons] at hr
    rcases hr with h | h
    · subst h
      rfl
    · exact productRowsAux_rowlen t 25000 1000 k r h
  · intro j r hget
    have hd : ((product_data t k).1.drop 1) = (productRowsAux t 1000 k 25000).1 := rfl
    rw [hd] at hget
    exact productRowsAux_id t 25000 1000 k j r hget
  · simp [marketing_campaigns, campaignRowsAux_length]
  · intro r hr
    simp only [marketing_campaigns, List.mem_cons] at hr
    rcases hr with h | h
    · subst h
      rfl
    · exact campaignRowsAux_rowlen t 25000 1 k r h

theorem files_shape_witness :
    (sales_data halfTape 0).1.length = 25001 ∧ salesHeader.length = 22 :=
  ⟨(files_shape halfTape 0).1.1,
   (files_shape halfTape 0).1.2.2.2 salesHeader (List.mem_cons_self _ _)⟩

theorem headD_of_get? {α : Type} {r : List α} {c d : α} (h : r.get? 0 = some c) :
    r.headD d = c := by
  cases r with
  | nil => simp at h
  | cons a l =>
      have hh : a = c := by
        simpa using h
      simp [hh]

/-- A sales row on draws that fire neither the duplicate nor the outlier
branch: its tape consumption is exactly 40 draws and its first cell is the
fresh id `i`, blanked only when the id-missingness draw fires. -/
theorem salesCells_head (t : Tape) (i : ℤ) (k : ℕ)
    (h5 : ¬ t (k+5) < 2/100) (h6 : ¬ t (k+6) < 1/100) :
    (salesCells t i k).2 = k + 40 ∧
    (salesCells t i k).1.get? 0 =
      some (if t (k+7) < 1/1000 then Cell.empty else Cell.int i) := by
  have hand : ¬ (t (k+5) < 2/100 ∧ 100 < i) := fun hc => h5 hc.1
  have hk : (salesCore t i k).2 = k + 7 := by
    rw [salesCore]
    simp only [if_neg hand, if_neg h6]
  have htid : (salesCore t i k).1.transaction_id = i := by
    rw [salesCore]
    simp only [if_neg hand, if_neg h6]
  constructor
  · rw [salesCells, hk]
    simp only [salesWriter]
  · rw [salesCells, hk]
    simp only [salesWriter, add_missing_values, List.get?, htid]

/-- Over a region of the tape where no duplicate or outlier branch fires,
the sales loop consumes exactly 40 draws per row and the `j`-th emitted
transaction_id cell is `i + j` (or blank when its missingness draw fires). -/
theorem salesRows_default (t : Tape) (n : ℕ) :
    ∀ i k,
      (∀ j, j < n → ¬ t (k + 40*j + 5) < 2/100) →
      (∀ j, j < n → ¬ t (k + 40*j + 6) < 1/100) →
      (salesRowsAux t i k n).2 = k + 40*n ∧
      (∀ j, j < n →
        ((salesRowsAux t i k n).1.map (fun r => r.headD Cell.empty)).get? j =
          some (if t (k + 40*j + 7) < 1/1000 then Cell.empty else Cell.int (i + j))) := by
  induction n with
  | zero =>
      intro i k _ _
      exact ⟨by simp [salesRowsAux], fun j hj => absurd hj (by omega)⟩
  | succ m ih =>
      intro i k h5 h6
      have h50 : ¬ t (k+5) < 2/100 := by
        have := h5 0 (by omega)
        have e : k + 40*0 + 5 = k + 5 := by ring
        rwa [e] at this
      have h60 : ¬ t (k+6) < 1/100 := by
        have := h6 0 (by omega)
        have e : k + 40*0 + 6 = k + 6 := by ring
        rwa [e] at this
      have hrow := salesCells_head t i k h50 h60
      have hIH := ih (i+1) (k+40)
        (fun j hj => by
          have hx := h5 (j+1) (by omega)
          have e : k + 40*(j+1) + 5 = k + 40 + 40*j + 5 := by ring
          rwa [e] at hx)
        (fun j hj => by
          have hx := h6 (j+1) (by omega)
          have e : k + 40*(j+1) + 6 = k + 40 + 40*j + 6 := by ring
          rwa [e] at hx)
      constructor
      · simp only [salesRowsAux]
        rw [hrow.1, hIH.1]
        ring
      · intro j hj
        cases j with
        | zero =>
            simp only [salesRowsAux, List.map, List.get?]
            have hh := headD_of_get? (d := Cell.empty) hrow.2
            rw [hh]
            have e : k + 40*0 + 7 = k + 7 := by ring
            rw [e]
            norm_num
        | succ j' =>
            simp only [salesRowsAux, List.map, List.get?]
            rw [hrow.1]
            have := hIH.2 j' (by omega)
            rw [this]
            have e : k + 40 + 40*j' + 7 = k + 40*(j'+1) + 7 := by ring
            rw [e]
            simp only [Option.some.injEq]
            by_cases hc : t (k + 40*(j'+1) + 7) < 1/1000
            · rw [if_pos hc, if_pos hc]
            · rw [if_neg hc, if_neg hc]
              simp only [Cell.int.injEq]
              push_cast
              ring

/-- Splitting a sales run after `m` rows. -/
theorem salesRowsAux_add (t : Tape) (m : ℕ) : ∀ (n : ℕ) (i : ℤ) (k : ℕ),
    (salesRowsAux t i k (m+n)).1 =
      (salesRowsAux t i k m).1 ++
        (salesRowsAux t (i+m) ((salesRowsAux t i k m).2) n).1 ∧
    (salesRowsAux t i k (m+n)).2 =
      (salesRowsAux t (i+m) ((salesRowsAux t i k m).2) n).2 := by
  induction m with
  | zero =>
      intro n i k
      constructor
      · simp [salesRowsAux]
      · simp [salesRowsAux]
  | succ m' ih =>
      intro n i k
      have hstep : m' + 1 + n = (m' + n) + 1 := by omega
      rw [hstep]
      simp only [salesRowsAux]
      have hih := ih n (i+1) ((salesCells t i k).2)
      constructor
      · rw [hih.1]
        simp only [List.cons_append]
        have e : i + 1 + (m' : ℤ) = i + ((m' + 1 : ℕ) : ℤ) := by
          push_cast
          ring
        rw [e]
      · rw [hih.2]
        have e : i + 1 + (m' : ℤ) = i + ((m' + 1 : ℕ) : ℤ) := by
          push_cast
          ring
        rw [e]

/-- C6 (amended): when the duplicate branch fires at row `i > 100`, the
overwritten `transaction_id` is a uniformly drawn integer in `[1, i−1]` —
which need NOT equal any previously emitted transaction_id (earlier rows may
themselves have been overwritten or blanked); when it does not fire, the
transaction_id is the fresh sequential value `i`. -/
theorem duplicate_id_range (t : Tape) (i : ℤ) (k : ℕ) (h : InRange t) (hi : 100 < i) :
    ((salesCore t i k).1.dupFired = true →
      1 ≤ (salesCore t i k).1.transaction_id ∧
      (salesCore t i k).1.transaction_id ≤ i - 1) ∧
    ((salesCore t i k).1.dupFired = false →
      (salesCore t i k).1.transaction_id = i) := by
  rw [salesCore]
  by_cases h1 : t (k+5) < 2/100 ∧ 100 < i
  · simp only [if_pos h1, decide_eq_true h1]
    refine ⟨fun _ => ⟨?_, ?_⟩, fun hf => absurd hf (by decide)⟩
    · exact randintV_lb (h _).1 (by omega)
    · exact randintV_ub (h _).2 (by omega)
  · simp only [if_neg h1, decide_eq_false h1]
    exact ⟨fun hf => absurd hf (by decide), fun _ => trivial⟩

theorem duplicate_id_range_witness :
    (salesCore halfTape 101 0).1.transaction_id = 101 := by
  have hno : ¬ (halfTape 5 < 2/100 ∧ (100 : ℤ) < 101) := by
    intro hc
    have := hc.1
    norm_num [halfTape] at this
  have hfl : (salesCore halfTape 101 0).1.dupFired = false := by
    rw [salesCore]
    simp only [if_neg hno, decide_eq_false hno]
  exact (duplicate_id_range halfTape 101 0 InRange_halfTape (by norm_num)).2 hfl

theorem duplicate_id_not_emitted_counterexample :
    InRange tapeDup ∧
    ((salesRowsAux tapeDup 1 0 101).1.map (fun r => r.headD Cell.empty)).get? 100 =
      some (Cell.int 100) ∧
    ((salesRowsAux tapeDup 1 0 101).1.map (fun r => r.headD Cell.empty)).get? 99 =
      some Cell.empty ∧
    Cell.int 100 ∉
      ((salesRowsAux tapeDup 1 0 101).1.map (fun r => r.headD Cell.empty)).take 100 ∧
    (salesCore tapeDup 101 4000).1.dupFired = true ∧
    (salesCore tapeDup 101 4000).1.transaction_id = 100 := by
  have hIR : InRange tapeDup := by
    intro n
    simp only [tapeDup]
    split_ifs <;> norm_num
  have h5pre : ∀ j, j < 100 → ¬ tapeDup (0 + 40*j + 5) < 2/100 := by
    intro j hj
    have e1 : 0 + 40*j + 5 ≠ 3967 := by omega
    have e2 : 0 + 40*j + 5 ≠ 4005 := by omega
    have e3 : 0 + 40*j + 5 ≠ 4006 := by omega
    simp only [tapeDup, if_neg e1, if_neg e2, if_neg e3]
    norm_num
  have h6pre : ∀ j, j < 100 → ¬ tapeDup (0 + 40*j + 6) < 1/100 := by
    intro j hj
    have e1 : 0 + 40*j + 6 ≠ 3967 := by omega
    have e2 : 0 + 40*j + 6 ≠ 4005 := by omega
    have e3 : 0 + 40*j + 6 ≠ 4006 := by omega
    simp only [tapeDup, if_neg e1, if_neg e2, if_neg e3]
    norm_num
  have hpre := salesRows_default tapeDup 100 1 0 h5pre h6pre
  have hk4000 : (salesRowsAux tapeDup 1 0 100).2 = 4000 := by
    have := hpre.1
    omega
  have hdup : tapeDup (4000+5) < 2/100 ∧ (100 : ℤ) < 101 := by
    constructor
    · norm_num [tapeDup]
    · norm_num
  have hout : ¬ tapeDup (4000+7) < 1/100 := by norm_num [tapeDup]
  have htid : randintV tapeDup (4000+6) 1 (101-1) = 1 + 99 :=
    randintV_eval (t := tapeDup) (k := 4000+6) (199/200) rfl 1 (101-1) 99
      (by norm_num) (by norm_num)
  have hk101 : (salesCore tapeDup 101 4000).2 = 4000+7+1 := by
    rw [salesCore]
    simp only [if_pos hdup, if_neg hout]
  have htid101 : (salesCore tapeDup 101 4000).1.transaction_id = 100 := by
    rw [salesCore]
    simp only [if_pos hdup]
    rw [htid]
    norm_num
  have hfired : (salesCore tapeDup 101 4000).1.dupFired = true := by
    rw [salesCore]
    simp only [if_pos hdup, decide_eq_true hdup]
  have hrow : (salesCells tapeDup 101 4000).1.get? 0 = some (Cell.int 100) := by
    rw [salesCells, hk101]
    simp only [salesWriter, add_missing_values, List.get?, htid101]
    rw [if_neg (show ¬ tapeDup (4000+7+1) < 1/1000 by norm_num [tapeDup])]
  have hadd := (salesRowsAux_add tapeDup 100 1 1 0).1
  have ei : (1 : ℤ) + ((100 : ℕ) : ℤ) = 101 := by norm_num
  rw [hk4000, ei] at hadd
  have hone : (salesRowsAux tapeDup 101 4000 1).1 = [(salesCells tapeDup 101 4000).1] := rfl
  rw [hone] at hadd
  have e101 : (101 : ℕ) = 100 + 1 := by norm_num
  have hL : (salesRowsAux tapeDup 1 0 101).1 =
      (salesRowsAux tapeDup 1 0 100).1 ++ [(salesCells tapeDup 101 4000).1] := by
    rw [e101]
    exact hadd
  refine ⟨hIR, ?_, ?_, ?_, hfired, htid101⟩
  · rw [hL, List.map_append,
      List.get?_append_right (by simp [salesRowsAux_length])]
    simp only [List.length_map, salesRowsAux_length, List.map, List.get?]
    rw [headD_of_get? hrow]
  · rw [hL, List.map_append,
      List.get?_append (by simp [salesRowsAux_length])]
    have h99 := hpre.2 99 (by norm_num)
    rw [if_pos (show tapeDup (0 + 40*99 + 7) < 1/1000 by norm_num [tapeDup])] at h99
    exact h99
  · rw [hL, List.map_append, List.take_left' (by simp [salesRowsAux_length])]
    intro hmem
    rcases List.mem_iff_get?.mp hmem with ⟨j, hj⟩
    have hjlt : j < 100 := by
      rcases List.get?_eq_some.mp hj with ⟨hlt, _⟩
      rw [List.length_map, salesRowsAux_length] at hlt
      exact hlt
    have hfact := hpre.2 j hjlt
    rw [hj] at hfact
    by_cases hcj : tapeDup (0 + 40*j + 7) < 1/1000
    · rw [if_pos hcj] at hfact
      exact Cell.noConfusion (Option.some.inj hfact)
    · rw [if_neg hcj] at hfact
      have hj99 : (100 : ℤ) = 1 + (j : ℤ) := Cell.int.inj (Option.some.inj hfact)
      have hj' : j = 99 := by omega
      subst hj'
      apply hcj
      norm_num [tapeDup]

end VisionSmart
